import Mathlib

/-!
# Currency converter controller (src/app.js)

A shallow embedding of the class CurrencyConverter of src/app.js.

* JavaScript numbers are IEEE-754 binary64 values: NaN, the two infinities and
  the finite values (sign, mantissa, binary exponent), signed zero included.
  The product and the decimal-to-binary conversion round to nearest, ties to
  even.
* The page is a record holding exactly the properties the methods read or
  write. Every element looked up by initializeElements is present, so each
  guard of the form `if (this.element)` is taken.
* Intl.NumberFormat is the en-US formatter with a fixed number of fraction
  digits: the shortest decimal that reads back as the Number is rounded half
  away from zero, the integer digits are grouped by three, NaN and the
  infinities have their own texts.
* The selectors hold one of the option values put there by
  populateCurrencyDropdowns, the codes of supportedCurrencies; a rates object
  is read by own property, and its values are Numbers.
* An async method is split at its suspension point: the part that runs up to
  the call of fetch, and the part that runs once the lookup has settled.
-/

set_option maxRecDepth 100000

namespace CurrencyConverter

/-! ## JavaScript numbers -/

/-- A JavaScript Number. The finite value fin neg m e stands for
(-1)^neg * m * 2^e. -/
inductive JSNumber where
  | nan
  | inf (neg : Bool)
  | fin (neg : Bool) (m : Nat) (e : Int)
  deriving DecidableEq, Repr

/-- Number of binary digits of n, by repeated halving. -/
def bitLengthAux : Nat → Nat → Nat
  | 0, _ => 0
  | fuel + 1, n => if n = 0 then 0 else bitLengthAux fuel (n / 2) + 1

/-- Number of binary digits of n (0 for 0). -/
def bitLength (n : Nat) : Nat := bitLengthAux n n

/-- The binary64 value nearest to (-1)^neg * p / q, ties to even: a 53-bit
mantissa, exponents from -1074 (subnormal) to 971, overflow to infinity. -/
def roundRat (neg : Bool) (p q : Nat) : JSNumber :=
  if p = 0 ∨ q = 0 then JSNumber.fin neg 0 0 else
  let e0 : Int := (bitLength p : Int) - (bitLength q : Int) - 53
  let scaled : Nat := if 0 ≤ e0 then p / (q * 2 ^ e0.toNat) else (p * 2 ^ (-e0).toNat) / q
  let e1 : Int := if 2 ^ 53 ≤ scaled then e0 + 1 else e0
  let e : Int := max e1 (-1074)
  let num : Nat := if 0 ≤ e then p else p * 2 ^ (-e).toNat
  let den : Nat := if 0 ≤ e then q * 2 ^ e.toNat else q
  let m0 : Nat := num / den
  let r : Nat := num % den
  let m : Nat := if den < 2 * r ∨ (2 * r = den ∧ m0 % 2 = 1) then m0 + 1 else m0
  if m = 0 then JSNumber.fin neg 0 0
  else if m = 2 ^ 53 then (if 971 < e + 1 then JSNumber.inf neg else JSNumber.fin neg (2 ^ 52) (e + 1))
  else if 971 < e then JSNumber.inf neg
  else JSNumber.fin neg m e

namespace JSNumber

/-- The Number 1. -/
def one : JSNumber := fin false (2 ^ 52) (-52)

/-- JavaScript ToBoolean on a Number: NaN, +0 and -0 are falsy. -/
def toBoolean : JSNumber → Bool
  | nan => false
  | inf _ => true
  | fin _ m _ => decide (m ≠ 0)

/-- The global isNaN on a Number. -/
def isNaN : JSNumber → Bool
  | nan => true
  | _ => false

/-- The comparison `x < 0`. -/
def ltZero : JSNumber → Bool
  | nan => false
  | inf neg => neg
  | fin neg m _ => neg && decide (m ≠ 0)

/-- The comparison `x <= 0`. -/
def leZero : JSNumber → Bool
  | nan => false
  | inf neg => neg
  | fin neg m _ => neg || decide (m = 0)

/-- The comparison `x > 0`. -/
def gtZero : JSNumber → Bool
  | nan => false
  | inf neg => !neg
  | fin neg m _ => !neg && decide (m ≠ 0)

/-- The comparison `x === 1`: the value is finite, positive and m * 2^e = 1. -/
def strictEqOne : JSNumber → Bool
  | fin false m e => if 0 ≤ e then decide (m * 2 ^ e.toNat = 1) else decide (m = 2 ^ (-e).toNat)
  | _ => false

/-- Whether the value is neither NaN nor an infinity. -/
def isFinite : JSNumber → Bool
  | fin _ _ _ => true
  | _ => false

/-- Whether two Numbers are the same datum: same kind, sign, mantissa and
exponent. -/
def same : JSNumber → JSNumber → Bool
  | nan, nan => true
  | inf a, inf b => a == b
  | fin a m e, fin b n f => a == b && m == n && e == f
  | _, _ => false

/-- The product `x * y` of two Numbers. -/
def mul : JSNumber → JSNumber → JSNumber
  | nan, _ => nan
  | _, nan => nan
  | inf a, inf b => inf (xor a b)
  | inf a, fin b m _ => if m = 0 then nan else inf (xor a b)
  | fin a m _, inf b => if m = 0 then nan else inf (xor a b)
  | fin a m e, fin b n f =>
    if 0 ≤ e + f then roundRat (xor a b) (m * n * 2 ^ (e + f).toNat) 1
    else roundRat (xor a b) (m * n) (2 ^ (-(e + f)).toNat)

end JSNumber

/-! ## parseFloat -/

/-- WhiteSpace and LineTerminator code points, the ones TrimString removes. -/
def isStrWhiteSpaceChar (c : Char) : Bool :=
  let n := c.toNat
  n = 9 || n = 10 || n = 11 || n = 12 || n = 13 || n = 32 || n = 160 || n = 5760 ||
  (8192 ≤ n && n ≤ 8202) || n = 8232 || n = 8233 || n = 8239 || n = 8287 ||
  n = 12288 || n = 65279

/-- The mathematical value of a run of decimal digits. -/
def digitsValue (ds : List Char) : Nat :=
  ds.foldl (fun acc c => 10 * acc + (c.toNat - 48)) 0

/-- SignedInteger of an ExponentPart: digits, when there is at least one. -/
def parseSignedInteger (cs : List Char) : Option Int :=
  match cs with
  | '+' :: r => if r.takeWhile Char.isDigit = [] then none else some (digitsValue (r.takeWhile Char.isDigit))
  | '-' :: r => if r.takeWhile Char.isDigit = [] then none else some (-(digitsValue (r.takeWhile Char.isDigit) : Int))
  | r => if r.takeWhile Char.isDigit = [] then none else some (digitsValue (r.takeWhile Char.isDigit))

/-- The value of the longest ExponentPart at the head of cs, 0 when there is none. -/
def parseExponentPart (cs : List Char) : Int :=
  match cs with
  | c :: r => if c = 'e' ∨ c = 'E' then (parseSignedInteger r).getD 0 else 0
  | [] => 0

/-- The binary64 value of digits * 10^exp10 with the given sign. -/
def decimalValue (neg : Bool) (digits : Nat) (exp10 : Int) : JSNumber :=
  if 0 ≤ exp10 then roundRat neg (digits * 10 ^ exp10.toNat) 1
  else roundRat neg digits (10 ^ (-exp10).toNat)

/-- The longest prefix that is a StrUnsignedDecimalLiteral, evaluated; NaN when
no prefix is one. -/
def parseUnsignedDecimalLiteral (neg : Bool) (cs : List Char) : JSNumber :=
  if "Infinity".toList.isPrefixOf cs then JSNumber.inf neg else
  let intDigits := cs.takeWhile Char.isDigit
  let rest := cs.dropWhile Char.isDigit
  match rest with
  | '.' :: r =>
    let fracDigits := r.takeWhile Char.isDigit
    if intDigits = [] ∧ fracDigits = [] then JSNumber.nan
    else decimalValue neg (digitsValue (intDigits ++ fracDigits))
      (parseExponentPart (r.dropWhile Char.isDigit) - (fracDigits.length : Int))
  | _ =>
    if intDigits = [] then JSNumber.nan
    else decimalValue neg (digitsValue intDigits) (parseExponentPart rest)

/-- The global parseFloat on a string: leading white space is skipped, then
the longest prefix that is a StrDecimalLiteral is evaluated. -/
def parseFloat (text : String) : JSNumber :=
  match text.toList.dropWhile isStrWhiteSpaceChar with
  | '+' :: r => parseUnsignedDecimalLiteral false r
  | '-' :: r => parseUnsignedDecimalLiteral true r
  | r => parseUnsignedDecimalLiteral false r

/-! ## Intl.NumberFormat, locale en-US, fixed number of fraction digits -/

/-- The decimal digit character of n % 10. -/
def digitChar (n : Nat) : Char :=
  match n % 10 with
  | 0 => '0'
  | 1 => '1'
  | 2 => '2'
  | 3 => '3'
  | 4 => '4'
  | 5 => '5'
  | 6 => '6'
  | 7 => '7'
  | 8 => '8'
  | _ => '9'

/-- Decimal digits of n, most significant first, put before acc. -/
def decDigitsAux : Nat → Nat → List Char → List Char
  | 0, _, acc => acc
  | fuel + 1, n, acc =>
    if n < 10 then digitChar n :: acc
    else decDigitsAux fuel (n / 10) (digitChar n :: acc)

/-- Decimal digits of n, most significant first (one digit 0 for 0). -/
def decDigits (n : Nat) : List Char := decDigitsAux (n + 1) n []

/-- The d low decimal digits of n, most significant first, zero padded. -/
def fractionDigits (d n : Nat) : List Char :=
  (List.range d).map (fun i => digitChar (n / 10 ^ (d - 1 - i)))

/-- A comma after every third digit of a digit run given least significant
digit first. -/
def groupReversed : List Char → List Char
  | a :: b :: c :: rest => if rest = [] then [a, b, c] else a :: b :: c :: ',' :: groupReversed rest
  | l => l

/-- Integer digits with the en-US grouping separator. -/
def groupThousands (ds : List Char) : List Char := (groupReversed ds.reverse).reverse

/-- Fraction digits without the trailing zeros beyond the first minDigits. -/
def trimFraction (minDigits : Nat) (ds : List Char) : List Char :=
  ds.take minDigits ++ ((ds.drop minDigits).reverse.dropWhile (fun c => c = '0')).reverse

/-- The options given to the Intl.NumberFormat constructor. -/
structure NumberFormatOptions where
  minimumFractionDigits : Nat
  maximumFractionDigits : Nat
  deriving DecidableEq, Repr

/-- The magnitude m * 2^e as a fraction: numerator and denominator. -/
def magnitude (m : Nat) (e : Int) : Nat × Nat :=
  if 0 ≤ e then (m * 2 ^ e.toNat, 1) else (m, 2 ^ (-e).toNat)

/-- The decimal exponent n of a positive p / q: 10^(n-1) ≤ p / q < 10^n. -/
def decimalExponent (p q : Nat) : Int :=
  if q ≤ p then ((decDigits (p / q)).length : Int)
  else
    let d := (decDigits (q / p)).length
    if p * 10 ^ (d - 1) = q then 2 - (d : Int) else 1 - (d : Int)

/-- The search for the shortest decimal of the binary64 value v = p / q,
with k digits next: the two k-digit decimals around p / q are tried; one that
reads back as v is taken, the nearer one when both do, the even one on a tie;
otherwise the search goes on with k + 1 digits. The result is the pair
(digits, exponent) standing for digits * 10^exponent. -/
def shortestDecimalAux (v : JSNumber) (p q : Nat) (n : Int) : Nat → Nat → Nat × Int
  | 0, _ => (p / q, 0)
  | fuel + 1, k =>
    let t : Int := n - (k : Int)
    let a : Nat := if 0 ≤ t then p else p * 10 ^ (-t).toNat
    let b : Nat := if 0 ≤ t then q * 10 ^ t.toNat else q
    let lo : Nat := a / b
    let r : Nat := a % b
    let okLo : Bool := (decimalValue false lo t).same v
    let okHi : Bool := (decimalValue false (lo + 1) t).same v
    if okLo && okHi then
      (if 2 * r < b ∨ (2 * r = b ∧ lo % 2 = 0) then (lo, t) else (lo + 1, t))
    else if okLo then (lo, t)
    else if okHi then (lo + 1, t)
    else shortestDecimalAux v p q n fuel (k + 1)

/-- The shortest decimal that reads back as the binary64 value m * 2^e, the
one Number.prototype.toString prints: as few digits as possible, at most 17,
and the nearest to the value among those. -/
def shortestDecimal (m : Nat) (e : Int) : Nat × Int :=
  let p := (magnitude m e).1
  let q := (magnitude m e).2
  if p = 0 then (0, 0)
  else shortestDecimalAux (roundRat false p q) p q (decimalExponent p q) 17 1

/-- The magnitude m * 2^e times 10^d as the formatter rounds it to an
integer: the shortest decimal of the value is taken, and it is rounded with
halves away from zero (the default rounding mode halfExpand). -/
def roundScaled (m : Nat) (e : Int) (d : Nat) : Nat :=
  let digits := (shortestDecimal m e).1
  let t : Int := (shortestDecimal m e).2 + (d : Int)
  if 0 ≤ t then digits * 10 ^ t.toNat
  else (2 * digits + 10 ^ (-t).toNat) / (2 * 10 ^ (-t).toNat)

/-- Characters of `new Intl.NumberFormat('en-US', options).format(x)`: the
sign, the grouped integer digits and, when there are fraction digits, a point
and the fraction digits. -/
def numberFormatChars (o : NumberFormatOptions) : JSNumber → List Char
  | JSNumber.nan => "NaN".toList
  | JSNumber.inf neg => (if neg then [ '-'] else []) ++ [ '∞']
  | JSNumber.fin neg m e =>
    let scaled := roundScaled m e o.maximumFractionDigits
    let intPart := scaled / 10 ^ o.maximumFractionDigits
    let frac := trimFraction o.minimumFractionDigits
      (fractionDigits o.maximumFractionDigits (scaled % 10 ^ o.maximumFractionDigits))
    (if neg then [ '-'] else []) ++ groupThousands (decDigits intPart) ++
      (if frac = [] then [] else '.' :: frac)

/-- The string `new Intl.NumberFormat('en-US', options).format(x)`. -/
def numberFormat (o : NumberFormatOptions) (x : JSNumber) : String :=
  String.mk (numberFormatChars o x)

/-- formatNumber(number, decimals) of src/app.js. Every call in the source
passes decimals, so its default value 2 is never used. -/
def formatNumber (number : JSNumber) (decimals : Nat) : String :=
  numberFormat { minimumFractionDigits := decimals, maximumFractionDigits := decimals } number

/-- formatCurrency(amount, currencyCode) of src/app.js. -/
def formatCurrency (amount : JSNumber) (currencyCode : String) : String :=
  let decimals := if currencyCode = "JPY" ∨ currencyCode = "KRW" then 0 else 2
  formatNumber amount decimals

/-- Number of characters after the decimal point of a rendered number, 0 when
it has no decimal point. -/
def fractionDigitCount (s : String) : Nat :=
  ((s.toList.dropWhile (fun c => c ≠ '.')).drop 1).length

/-! ## The controller and the page -/

/-- An entry of supportedCurrencies. -/
structure Currency where
  code : String
  name : String
  symbol : String
  deriving DecidableEq, Repr

/-- The field supportedCurrencies set by the constructor. -/
def supportedCurrencies : List Currency :=
  [ ⟨"USD", "US Dollar", "$"⟩,
    ⟨"EUR", "Euro", "€"⟩,
    ⟨"GBP", "British Pound", "£"⟩,
    ⟨"JPY", "Japanese Yen", "¥"⟩,
    ⟨"AUD", "Australian Dollar", "A$"⟩,
    ⟨"CAD", "Canadian Dollar", "C$"⟩,
    ⟨"CHF", "Swiss Franc", "Fr"⟩,
    ⟨"CNY", "Chinese Yuan", "¥"⟩,
    ⟨"INR", "Indian Rupee", "₹"⟩,
    ⟨"KRW", "South Korean Won", "₩"⟩,
    ⟨"BRL", "Brazilian Real", "R$"⟩,
    ⟨"RUB", "Russian Ruble", "₽"⟩,
    ⟨"MXN", "Mexican Peso", "$"⟩,
    ⟨"SGD", "Singapore Dollar", "S$"⟩,
    ⟨"HKD", "Hong Kong Dollar", "HK$"⟩,
    ⟨"NOK", "Norwegian Krone", "kr"⟩,
    ⟨"SEK", "Swedish Krona", "kr"⟩,
    ⟨"DKK", "Danish Krone", "kr"⟩,
    ⟨"PLN", "Polish Zloty", "zł"⟩,
    ⟨"TRY", "Turkish Lira", "₺"⟩,
    ⟨"ZAR", "South African Rand", "R"⟩,
    ⟨"AED", "UAE Dirham", "د.إ"⟩,
    ⟨"SAR", "Saudi Riyal", "﷼"⟩,
    ⟨"THB", "Thai Baht", "฿"⟩,
    ⟨"NZD", "New Zealand Dollar", "NZ$"⟩ ]

/-- The option values populateCurrencyDropdowns puts in both selectors. -/
def currencyCodes : List String := supportedCurrencies.map Currency.code

/-- The field apiEndpoint set by the constructor. -/
def apiEndpoint : String := "https://api.exchangerate-api.com/v4/latest/"

/-- The rates object of a response: its own properties, each a Number. -/
abbrev Rates := List (String × JSNumber)

/-- The text of the updateTime element: the literal text, or the date made
from a value of lastUpdated and rendered by toLocaleDateString. -/
inductive TimestampText where
  | notAvailable
  | localeDate (lastUpdated : String)
  deriving DecidableEq, Repr

/-- The controller object together with the page elements it holds. A field
named after an element holds the one property of the element the methods use:
the value of a form control, the text content of a text node holder, whether
the class list of a panel contains hidden. -/
structure State where
  /-- Property amountInput.value. -/
  amountValue : String
  /-- Message last given to amountInput.setCustomValidity. -/
  amountValidity : String
  /-- Property fromCurrencySelect.value. -/
  fromCurrency : String
  /-- Property toCurrencySelect.value. -/
  toCurrency : String
  /-- Whether resultDisplay has the class hidden. -/
  resultHidden : Bool
  /-- Whether errorDisplay has the class hidden. -/
  errorHidden : Bool
  /-- Whether loadingDisplay has the class hidden. -/
  loadingHidden : Bool
  /-- Text of the element convertedAmount. -/
  convertedAmount : String
  /-- Text of the element resultCurrency. -/
  resultCurrency : String
  /-- Text of the element exchangeRate. -/
  exchangeRate : String
  /-- Text of the element errorText. -/
  errorText : String
  /-- Text of the element updateTime. -/
  updateTime : TimestampText
  /-- Whether convertBtn has the class loading. -/
  btnLoading : Bool
  /-- Property convertBtn.disabled. -/
  btnDisabled : Bool
  /-- Property swapBtn.style.transform. -/
  swapTransform : String
  /-- The field exchangeRates: rates objects keyed by source currency. -/
  exchangeRates : List (String × Rates)
  /-- The field lastUpdated, none for null. -/
  lastUpdated : Option String
  /-- The URLs fetch has been called with, oldest first. -/
  requests : List String
  deriving DecidableEq, Repr

/-- JavaScript ToBoolean on a string: only the empty string is falsy. -/
def stringToBoolean (s : String) : Bool := decide (s ≠ "")

/-- hideAllResults() of src/app.js. -/
def hideAllResults (s : State) : State :=
  { s with resultHidden := true, errorHidden := true, loadingHidden := true }

/-- clearResult() of src/app.js. -/
def clearResult (s : State) : State := hideAllResults s

/-- resetButtonState() of src/app.js. -/
def resetButtonState (s : State) : State :=
  { s with btnLoading := false, btnDisabled := false }

/-- showLoading() of src/app.js. -/
def showLoading (s : State) : State :=
  let s1 := hideAllResults s
  let s2 := { s1 with loadingHidden := false }
  { s2 with btnLoading := true, btnDisabled := true }

/-- showResult(amount, currency, rate, fromCurrency = null) of src/app.js;
fromCurrency is none when the argument is left out. -/
def showResult (s : State) (amount : JSNumber) (currency : String) (rate : JSNumber)
    (fromCurrency : Option String) : State :=
  let s1 := hideAllResults s
  let s2 := { s1 with convertedAmount := formatCurrency amount currency, resultCurrency := currency }
  let s3 :=
    match fromCurrency with
    | some src =>
      if stringToBoolean src && !rate.strictEqOne then
        { s2 with exchangeRate := "1 " ++ src ++ " = " ++ formatNumber rate 6 ++ " " ++ currency }
      else if rate.strictEqOne then
        { s2 with exchangeRate := "Same currency - no conversion needed" }
      else s2
    | none =>
      if rate.strictEqOne then
        { s2 with exchangeRate := "Same currency - no conversion needed" }
      else s2
  let s4 := { s3 with resultHidden := false }
  resetButtonState s4

/-- showError(message) of src/app.js. -/
def showError (s : State) (message : String) : State :=
  let s1 := hideAllResults s
  let s2 := { s1 with errorText := message }
  let s3 := { s2 with errorHidden := false }
  resetButtonState s3

/-- updateTimestamp() of src/app.js. -/
def updateTimestamp (s : State) : State :=
  match s.lastUpdated with
  | some d =>
    if stringToBoolean d then { s with updateTime := TimestampText.localeDate d }
    else { s with updateTime := TimestampText.notAvailable }
  | none => { s with updateTime := TimestampText.notAvailable }

/-- validateAmountInput(input) of src/app.js, with input the amount field:
the new state and the returned boolean. -/
def validateAmountInput (s : State) : State × Bool :=
  let value := parseFloat s.amountValue
  if stringToBoolean s.amountValue && (value.isNaN || value.ltZero) then
    ({ s with amountValidity := "Please enter a valid positive number" }, false)
  else
    ({ s with amountValidity := "" }, true)

/-- swapCurrencies() of src/app.js, up to the timer it starts. -/
def swapCurrencies (s : State) : State :=
  let fromValue := s.fromCurrency
  let toValue := s.toCurrency
  let s1 := { s with fromCurrency := toValue }
  let s2 := { s1 with toCurrency := fromValue }
  let s3 := { s2 with swapTransform := "rotate(180deg) scale(0.95)" }
  clearResult s3

/-- The callback swapCurrencies hands to setTimeout. -/
def swapTimeout (s : State) : State := { s with swapTransform := "" }

/-- setDefaultValues() of src/app.js. -/
def setDefaultValues (s : State) : State :=
  { s with amountValue := "100", fromCurrency := "USD", toCurrency := "EUR" }

/-- The constructor followed by init(): page is the state of the elements as
the markup gives them. Populating the selectors and attaching the listeners
change none of the modelled properties. -/
def init (page : State) : State :=
  let s0 := { page with exchangeRates := [], lastUpdated := none }
  updateTimestamp (setDefaultValues s0)

/-! ## The rate lookup -/

/-- What a throw statement or a rejected promise carries. -/
inductive JSError where
  /-- A value raised by the platform: fetch or response.json() rejecting. -/
  | platform (message : String)
  /-- The TypeError of reading a property of null. -/
  | typeError
  /-- The value of `new Error(message)` thrown by the code. -/
  | error (message : String)
  deriving DecidableEq, Repr

/-- The value response.json() resolves with, as far as getExchangeRate reads
it: null, or a value whose property rates is falsy (none) or an object, and
whose property date is a string or missing (none). -/
inductive JsonData where
  | null
  | object (rates : Option Rates) (date : Option String)
  deriving DecidableEq, Repr

/-- How response.json() settles: the promise rejects, or resolves with the
parsed body. -/
inductive BodyOutcome where
  | rejected (message : String)
  | resolved (data : JsonData)
  deriving DecidableEq, Repr

/-- How the call of fetch settles: the promise rejects, or it resolves with a
response that has a status and a body. -/
inductive FetchOutcome where
  | rejected (message : String)
  | response (status : Nat) (body : BodyOutcome)
  deriving DecidableEq, Repr

/-- Property response.ok: the status is in the range 200 to 299. -/
def responseOk (status : Nat) : Bool := decide (200 ≤ status ∧ status ≤ 299)

/-- Assignment `object[key] = value` on an object given by its properties in
creation order: an existing property keeps its place, a new one goes last. -/
def setProperty : List (String × Rates) → String → Rates → List (String × Rates)
  | [], key, value => [(key, value)]
  | kv :: rest, key, value =>
    if kv.1 = key then (key, value) :: rest else kv :: setProperty rest key value

/-- The first part of getExchangeRate(fromCurrency, toCurrency): the call of
fetch with the endpoint followed by the source currency. -/
def getExchangeRateStart (s : State) (fromCurrency : String) : State :=
  { s with requests := s.requests ++ [apiEndpoint ++ fromCurrency] }

/-- The rest of getExchangeRate(fromCurrency, toCurrency), run when fetch has
settled with outcome; now is the value of `new Date().toISOString()`. The
result is the new state with the returned rate or the thrown value. -/
def getExchangeRateSettled (s : State) (fromCurrency toCurrency : String)
    (outcome : FetchOutcome) (now : String) : State × Except JSError JSNumber :=
  match outcome with
  | FetchOutcome.rejected message => (s, Except.error (JSError.platform message))
  | FetchOutcome.response status body =>
    if !responseOk status then
      (s, Except.error (JSError.error ("HTTP error! status: " ++ toString status)))
    else
      match body with
      | BodyOutcome.rejected message => (s, Except.error (JSError.platform message))
      | BodyOutcome.resolved JsonData.null => (s, Except.error JSError.typeError)
      | BodyOutcome.resolved (JsonData.object none _) =>
        (s, Except.error (JSError.error ("Exchange rate not available for " ++ toCurrency)))
      | BodyOutcome.resolved (JsonData.object (some rates) date) =>
        match rates.lookup toCurrency with
        | none =>
          (s, Except.error (JSError.error ("Exchange rate not available for " ++ toCurrency)))
        | some rate =>
          if !rate.toBoolean then
            (s, Except.error (JSError.error ("Exchange rate not available for " ++ toCurrency)))
          else
            let s1 := { s with exchangeRates := setProperty s.exchangeRates fromCurrency rates }
            let dateOrNow := if (date.map stringToBoolean).getD false then date.getD now else now
            let s2 := { s1 with lastUpdated := some dateOrNow }
            let s3 := updateTimestamp s2
            (s3, Except.ok rate)

/-- The text of the error panel after a failed lookup. -/
def connectivityMessage : String :=
  "Failed to fetch exchange rates. Please check your connection and try again."

/-- The local variables of a call of convertCurrency suspended on its lookup. -/
structure Pending where
  amount : JSNumber
  fromCurrency : String
  toCurrency : String
  deriving DecidableEq, Repr

/-- The first part of convertCurrency(): everything up to the call of fetch.
The second component is none when the call has returned, and the suspended
call when it waits for the lookup. -/
def convertCurrencyStart (s : State) : State × Option Pending :=
  let amount := parseFloat s.amountValue
  let fromCurrency := s.fromCurrency
  let toCurrency := s.toCurrency
  if !amount.toBoolean || amount.leZero then
    (showError s "Please enter a valid amount greater than 0", none)
  else if fromCurrency = toCurrency then
    (showResult s amount toCurrency JSNumber.one none, none)
  else
    let s1 := showLoading s
    (getExchangeRateStart s1 fromCurrency, some ⟨amount, fromCurrency, toCurrency⟩)

/-- The rest of convertCurrency(), run when the lookup of the suspended call
p has settled. -/
def convertCurrencySettled (s : State) (p : Pending) (outcome : FetchOutcome)
    (now : String) : State :=
  match getExchangeRateSettled s p.fromCurrency p.toCurrency outcome now with
  | (s1, Except.ok rate) =>
    let convertedAmount := p.amount.mul rate
    showResult s1 convertedAmount p.toCurrency rate (some p.fromCurrency)
  | (s1, Except.error _) =>
    showError s1 "Failed to fetch exchange rates. Please check your connection and try again."

/-- A call of convertCurrency() run to completion with no other event in
between: network tells how the request for a URL settles. -/
def convertCurrency (network : String → FetchOutcome) (now : String) (s : State) : State :=
  match convertCurrencyStart s with
  | (s1, none) => s1
  | (s1, some p) => convertCurrencySettled s1 p (network (apiEndpoint ++ p.fromCurrency)) now

/-! ## The event loop -/

/-- The controller between two events: the page, the calls of
convertCurrency that wait for their lookup, and a history variable that is
not a property of the page: the source and target read by the call of
convertCurrency whose result showResult rendered last. -/
structure System where
  ui : State
  pending : List Pending
  shownFor : Option (String × String)
  deriving DecidableEq, Repr

/-- What the event loop can run next: a listener attached by
setupEventListeners, the timer of swapCurrencies, or the continuation of a
suspended convertCurrency. -/
inductive Event where
  /-- Submit of the form, click on convertBtn, or Enter in the amount field. -/
  | convert
  /-- The lookup of the suspended call number index settles. -/
  | settle (index : Nat) (outcome : FetchOutcome) (now : String)
  /-- The user picks another option of fromCurrencySelect. -/
  | changeFrom (code : String)
  /-- The user picks another option of toCurrencySelect. -/
  | changeTo (code : String)
  /-- Click on swapBtn. -/
  | swap
  /-- The user edits the amount field. -/
  | input (text : String)
  /-- The timer started by swapCurrencies fires. -/
  | swapTimer
  deriving DecidableEq, Repr

/-- Whether the event can happen in the state: only a suspended call can
settle, and a selector changes to another of its options. -/
def Event.enabled (σ : System) : Event → Prop
  | Event.settle index _ _ => index < σ.pending.length
  | Event.changeFrom code => code ∈ currencyCodes ∧ code ≠ σ.ui.fromCurrency
  | Event.changeTo code => code ∈ currencyCodes ∧ code ≠ σ.ui.toCurrency
  | _ => True

/-- The state after the listener or continuation of the event has run. The
history variable is set when the run leaves a result on display. -/
def System.handle (σ : System) : Event → System
  | Event.convert =>
    match convertCurrencyStart σ.ui with
    | (s, none) =>
      { ui := s, pending := σ.pending,
        shownFor := if s.resultHidden then σ.shownFor
                    else some (σ.ui.fromCurrency, σ.ui.toCurrency) }
    | (s, some p) => { ui := s, pending := σ.pending ++ [p], shownFor := σ.shownFor }
  | Event.settle index outcome now =>
    match σ.pending.get? index with
    | none => σ
    | some p =>
      { ui := convertCurrencySettled σ.ui p outcome now,
        pending := σ.pending.eraseIdx index,
        shownFor := if (convertCurrencySettled σ.ui p outcome now).resultHidden then σ.shownFor
                    else some (p.fromCurrency, p.toCurrency) }
  | Event.changeFrom code =>
    { ui := clearResult { σ.ui with fromCurrency := code }, pending := σ.pending,
      shownFor := σ.shownFor }
  | Event.changeTo code =>
    { ui := clearResult { σ.ui with toCurrency := code }, pending := σ.pending,
      shownFor := σ.shownFor }
  | Event.swap => { ui := swapCurrencies σ.ui, pending := σ.pending, shownFor := σ.shownFor }
  | Event.input text =>
    { ui := (validateAmountInput { σ.ui with amountValue := text }).1, pending := σ.pending,
      shownFor := σ.shownFor }
  | Event.swapTimer => { ui := swapTimeout σ.ui, pending := σ.pending, shownFor := σ.shownFor }

/-- The start of the controller on the page given by the markup. -/
def System.start (page : State) : System :=
  { ui := init page, pending := [], shownFor := none }

/-- The states the controller can be in, started on the page given by the
markup. -/
inductive Reachable (page : State) : System → Prop where
  | start : Reachable page (System.start page)
  | step (σ : System) (ev : Event) : Reachable page σ → ev.enabled σ →
      Reachable page (σ.handle ev)

/-- The proviso on an event: a lookup whose settling puts a result on display
settles while the selected target is the one its call read; with pair set,
while the selected source is the one its call read as well. Every other event
is free. -/
def Event.fresh (pair : Bool) (σ : System) : Event → Prop
  | Event.settle index outcome now =>
    ∀ p, σ.pending.get? index = some p →
      (convertCurrencySettled σ.ui p outcome now).resultHidden = false →
      p.toCurrency = σ.ui.toCurrency ∧ (pair = true → p.fromCurrency = σ.ui.fromCurrency)
  | _ => True

/-- The states reached when every event meets the proviso. -/
inductive ReachableFresh (pair : Bool) (page : State) : System → Prop where
  | start : ReachableFresh pair page (System.start page)
  | step (σ : System) (ev : Event) : ReachableFresh pair page σ → ev.enabled σ →
      ev.fresh pair σ → ReachableFresh pair page (σ.handle ev)

/-- Number of panels among loading, result and error that are visible. -/
def visiblePanels (s : State) : Nat :=
  (if s.loadingHidden then 0 else 1) + (if s.resultHidden then 0 else 1) +
    (if s.errorHidden then 0 else 1)

/-- Modelled from the spec: the markup of the page is not part of src/. The
page starts idle, the three panels hidden, the texts empty and the convert
button enabled; the selectors and the amount are set by init. -/
def idlePage : State :=
  { amountValue := "", amountValidity := "", fromCurrency := "", toCurrency := "",
    resultHidden := true, errorHidden := true, loadingHidden := true,
    convertedAmount := "", resultCurrency := "", exchangeRate := "", errorText := "",
    updateTime := TimestampText.notAvailable, btnLoading := false, btnDisabled := false,
    swapTransform := "", exchangeRates := [], lastUpdated := none, requests := [] }

/-- The ways a lookup for the target toCurrency fails: the request throws
(fetch or the reading of the body rejects), the status is not a success
status, the body has no rates mapping (it is null, or its rates property is
missing), or the rates mapping lacks the target code. -/
inductive LookupFailure (toCurrency : String) : FetchOutcome → Prop where
  | fetchRejects (message : String) : LookupFailure toCurrency (FetchOutcome.rejected message)
  | badStatus (status : Nat) (body : BodyOutcome) : responseOk status = false →
      LookupFailure toCurrency (FetchOutcome.response status body)
  | bodyRejects (status : Nat) (message : String) :
      LookupFailure toCurrency (FetchOutcome.response status (BodyOutcome.rejected message))
  | nullBody (status : Nat) :
      LookupFailure toCurrency (FetchOutcome.response status (BodyOutcome.resolved JsonData.null))
  | noRates (status : Nat) (date : Option String) :
      LookupFailure toCurrency
        (FetchOutcome.response status (BodyOutcome.resolved (JsonData.object none date)))
  | missingTarget (status : Nat) (rates : Rates) (date : Option String) :
      rates.lookup toCurrency = none →
      LookupFailure toCurrency
        (FetchOutcome.response status (BodyOutcome.resolved (JsonData.object (some rates) date)))

/-- The rates object without its property key. -/
def deleteProperty (rates : Rates) (key : String) : Rates :=
  rates.filter (fun kv => kv.1 ≠ key)

/-- A rate service that answers every request with status 200 and the given
rates, without a date. -/
def mockService (rates : Rates) : String → FetchOutcome :=
  fun _ => FetchOutcome.response 200 (BodyOutcome.resolved (JsonData.object (some rates) none))

/-- The start state followed by: a convert trigger (100 USD to EUR, lookup
pending), a change of the target selector to GBP, and the lookup settling
with the rate EUR: 0.92. -/
def staleSystem : System :=
  (((System.start idlePage).handle Event.convert).handle (Event.changeTo "GBP")).handle
    (Event.settle 0 (mockService [("EUR", parseFloat "0.92")] "") "")

/-- The start state followed by a convert trigger (100 USD to EUR) and the
lookup settling with the rate EUR: 0.92. -/
def settledSystem : System :=
  ((System.start idlePage).handle Event.convert).handle
    (Event.settle 0 (mockService [("EUR", parseFloat "0.92")] "") "")

/-- The start state followed by: a convert trigger (100 USD to EUR, lookup
pending), a change of the source selector to GBP, and the lookup settling
with the rate EUR: 0.92. -/
def sourceChangedSystem : System :=
  (((System.start idlePage).handle Event.convert).handle (Event.changeFrom "GBP")).handle
    (Event.settle 0 (mockService [("EUR", parseFloat "0.92")] "") "")

/-! ## Lemmas on numbers -/

theorem JSNumber.gtZero_iff_accepted (x : JSNumber) :
    x.gtZero = true ↔ (!x.toBoolean || x.leZero) = false := by
  cases x with
  | nan => simp [JSNumber.gtZero, JSNumber.toBoolean, JSNumber.leZero]
  | inf neg => cases neg <;> simp [JSNumber.gtZero, JSNumber.toBoolean, JSNumber.leZero]
  | fin neg m e =>
    cases neg <;> by_cases hm : m = 0 <;>
      simp [JSNumber.gtZero, JSNumber.toBoolean, JSNumber.leZero, hm]

theorem JSNumber.strictEqOne_one : JSNumber.one.strictEqOne = true := by decide

/-- The fuel of bitLength is enough: n has at most bitLength n binary digits. -/
theorem lt_two_pow_bitLengthAux (fuel n : Nat) (h : n ≤ fuel) :
    n < 2 ^ bitLengthAux fuel n := by
  induction fuel generalizing n with
  | zero =>
    have hn : n = 0 := Nat.le_zero.mp h
    subst hn
    simp [bitLengthAux]
  | succ fuel ih =>
    unfold bitLengthAux
    by_cases hn : n = 0
    · simp [hn]
    · simp only [hn, if_false]
      have hhalf : n / 2 ≤ fuel := by omega
      have := ih (n / 2) hhalf
      rw [pow_succ]
      omega

/-- The fuel of bitLength is enough: a positive n has at least bitLength n
binary digits. -/
theorem two_pow_bitLengthAux_le (fuel n : Nat) (h : n ≤ fuel) (hn : n ≠ 0) :
    2 ^ (bitLengthAux fuel n - 1) ≤ n := by
  induction fuel generalizing n with
  | zero => exact absurd (Nat.le_zero.mp h) hn
  | succ fuel ih =>
    unfold bitLengthAux
    simp only [hn, if_false, Nat.add_sub_cancel]
    by_cases h2 : n / 2 = 0
    · have : bitLengthAux fuel (n / 2) = 0 := by
        rw [h2]
        cases fuel <;> simp [bitLengthAux]
      rw [this]
      simp
      omega
    · have hhalf : n / 2 ≤ fuel := by omega
      have := ih (n / 2) hhalf h2
      have hpos : 0 < bitLengthAux fuel (n / 2) := by
        cases fuel with
        | zero => omega
        | succ f => simp [bitLengthAux, h2]
      have hk : bitLengthAux fuel (n / 2) = (bitLengthAux fuel (n / 2) - 1) + 1 := by omega
      rw [hk, pow_succ]
      omega

/-- Checks of parseFloat, of the product and of the formatter against values
JavaScript gives: 0.1 * 3 is 0.30000000000000004 and not 0.3, text after the
literal is ignored, the formatter rounds the shortest decimal of the Number
(1.005 gives 1.01) with halves away from zero. -/
theorem number_model_checks :
    parseFloat "100" = JSNumber.fin false 7036874417766400 (-46) ∧
    parseFloat "  12.5px" = JSNumber.fin false 7036874417766400 (-49) ∧
    parseFloat "abc" = JSNumber.nan ∧
    parseFloat "" = JSNumber.nan ∧
    parseFloat "." = JSNumber.nan ∧
    parseFloat "-0" = JSNumber.fin true 0 0 ∧
    parseFloat "-Infinity" = JSNumber.inf true ∧
    parseFloat "1" = JSNumber.one ∧
    (parseFloat "0.1").mul (parseFloat "3") = parseFloat "0.30000000000000004" ∧
    (parseFloat "0.1").mul (parseFloat "3") ≠ parseFloat "0.3" ∧
    formatNumber (parseFloat "1234567.891") 2 = "1,234,567.89" ∧
    formatNumber (parseFloat "999.995") 2 = "1,000.00" ∧
    formatNumber (parseFloat "-0.001") 2 = "-0.00" ∧
    formatNumber (parseFloat "1.005") 2 = "1.01" ∧
    formatNumber ((parseFloat "1000").mul (parseFloat "0.742635")) 2 = "742.64" ∧
    formatNumber (parseFloat "0.9200005") 6 = "0.920001" ∧
    formatNumber (parseFloat "1e23") 2 = "100,000,000,000,000,000,000,000.00" ∧
    shortestDecimal 5404319552844596 (-54) = (30000000000000004, -17) ∧
    formatNumber (parseFloat "2.5") 0 = "3" ∧
    formatNumber (JSNumber.inf false) 2 = "∞" ∧
    formatNumber JSNumber.nan 2 = "NaN" := by
  refine ⟨?_, ?_, ?_, ?_, ?_, ?_, ?_, ?_, ?_, ?_, ?_, ?_, ?_, ?_, ?_, ?_, ?_, ?_, ?_, ?_, ?_⟩ <;>
    decide

/-! ## Conversion without a lookup -/

/-- C1: when the amount parses to a number greater than 0 and source and
target are the same code A, convertCurrency returns without a lookup: it is
showResult with the parsed amount, A and the rate 1, so the result panel alone
is visible, the rate line is the same-currency message, the converted amount
is the input amount formatted for A, the result currency is A, and no request
has been issued. -/
theorem convertCurrency_same_currency (network : String → FetchOutcome) (now : String)
    (s : State) (A : String) (hfrom : s.fromCurrency = A) (hto : s.toCurrency = A)
    (hpos : (parseFloat s.amountValue).gtZero = true) :
    convertCurrency network now s = showResult s (parseFloat s.amountValue) A JSNumber.one none ∧
    convertCurrencyStart s = (convertCurrency network now s, none) ∧
    (convertCurrency network now s).resultHidden = false ∧
    (convertCurrency network now s).errorHidden = true ∧
    (convertCurrency network now s).loadingHidden = true ∧
    (convertCurrency network now s).exchangeRate = "Same currency - no conversion needed" ∧
    (convertCurrency network now s).convertedAmount = formatCurrency (parseFloat s.amountValue) A ∧
    (convertCurrency network now s).resultCurrency = A ∧
    (convertCurrency network now s).requests = s.requests := by
  have hacc := (JSNumber.gtZero_iff_accepted _).mp hpos
  have hstart : convertCurrencyStart s =
      (showResult s (parseFloat s.amountValue) A JSNumber.one none, none) := by
    simp only [convertCurrencyStart, hacc, hfrom, hto]
    simp
  have hrun : convertCurrency network now s =
      showResult s (parseFloat s.amountValue) A JSNumber.one none := by
    simp only [convertCurrency, hstart]
  rw [hrun]
  refine ⟨rfl, hstart, ?_, ?_, ?_, ?_, ?_, ?_, ?_⟩ <;>
    simp [showResult, hideAllResults, resetButtonState, JSNumber.strictEqOne_one]

/-- C1 at the amounts 100 and 1.005 with USD selected on both sides. -/
theorem convertCurrency_same_currency_witness :
    (parseFloat "100").gtZero = true ∧
    (convertCurrency (fun _ => FetchOutcome.rejected "") ""
      { idlePage with amountValue := "1.005", fromCurrency := "USD", toCurrency := "USD" }).convertedAmount
        = "1.01" ∧
    (convertCurrency (fun _ => FetchOutcome.rejected "") ""
      { idlePage with amountValue := "100", fromCurrency := "USD", toCurrency := "USD" }).convertedAmount
        = "100.00" ∧
    (convertCurrency (fun _ => FetchOutcome.rejected "") ""
      { idlePage with amountValue := "100", fromCurrency := "USD", toCurrency := "USD" }).requests
        = [] :=
  ⟨by decide,
   ((convertCurrency_same_currency (fun _ => FetchOutcome.rejected "") ""
      { idlePage with amountValue := "1.005", fromCurrency := "USD", toCurrency := "USD" }
      "USD" rfl rfl (by decide)).2.2.2.2.2.2.1).trans (by decide),
   ((convertCurrency_same_currency (fun _ => FetchOutcome.rejected "") ""
      { idlePage with amountValue := "100", fromCurrency := "USD", toCurrency := "USD" }
      "USD" rfl rfl (by decide)).2.2.2.2.2.2.1).trans (by decide),
   (convertCurrency_same_currency (fun _ => FetchOutcome.rejected "") ""
      { idlePage with amountValue := "100", fromCurrency := "USD", toCurrency := "USD" }
      "USD" rfl rfl (by decide)).2.2.2.2.2.2.2.2⟩

/-- C2: when the amount parses to NaN or to a number that is 0 or less,
whatever the currencies, convertCurrency returns without a lookup: the error
panel alone is visible with the invalid-amount message, no request has been
issued and the convert button is enabled. -/
theorem convertCurrency_invalid_amount (network : String → FetchOutcome) (now : String)
    (s : State)
    (hbad : (parseFloat s.amountValue).isNaN = true ∨ (parseFloat s.amountValue).leZero = true) :
    convertCurrency network now s = showError s "Please enter a valid amount greater than 0" ∧
    convertCurrencyStart s = (convertCurrency network now s, none) ∧
    (convertCurrency network now s).errorHidden = false ∧
    (convertCurrency network now s).resultHidden = true ∧
    (convertCurrency network now s).loadingHidden = true ∧
    (convertCurrency network now s).errorText = "Please enter a valid amount greater than 0" ∧
    (convertCurrency network now s).requests = s.requests ∧
    (convertCurrency network now s).btnDisabled = false ∧
    (convertCurrency network now s).btnLoading = false := by
  have hrej : (!(parseFloat s.amountValue).toBoolean || (parseFloat s.amountValue).leZero) = true := by
    rcases hbad with h | h
    · cases hx : parseFloat s.amountValue <;> simp_all [JSNumber.isNaN, JSNumber.toBoolean]
    · simp [h]
  have hstart : convertCurrencyStart s =
      (showError s "Please enter a valid amount greater than 0", none) := by
    simp only [convertCurrencyStart, hrej]
    simp
  have hrun : convertCurrency network now s =
      showError s "Please enter a valid amount greater than 0" := by
    simp only [convertCurrency, hstart]
  rw [hrun]
  refine ⟨rfl, hstart, ?_, ?_, ?_, ?_, ?_, ?_, ?_⟩ <;>
    simp [showError, hideAllResults, resetButtonState]

/-- C2 at the amount texts abc (not a number) with the button disabled and
loading before the call. -/
theorem convertCurrency_invalid_amount_witness :
    ((parseFloat "abc").isNaN = true ∨ (parseFloat "abc").leZero = true) ∧
    (convertCurrency (fun _ => FetchOutcome.rejected "") ""
      { idlePage with amountValue := "abc", fromCurrency := "USD", toCurrency := "EUR",
                      btnDisabled := true, loadingHidden := false }).errorText
        = "Please enter a valid amount greater than 0" ∧
    (convertCurrency (fun _ => FetchOutcome.rejected "") ""
      { idlePage with amountValue := "abc", fromCurrency := "USD", toCurrency := "EUR",
                      btnDisabled := true, loadingHidden := false }).btnDisabled = false :=
  ⟨Or.inl (by decide),
   (convertCurrency_invalid_amount (fun _ => FetchOutcome.rejected "") ""
      { idlePage with amountValue := "abc", fromCurrency := "USD", toCurrency := "EUR",
                      btnDisabled := true, loadingHidden := false }
      (Or.inl (by decide))).2.2.2.2.2.1,
   (convertCurrency_invalid_amount (fun _ => FetchOutcome.rejected "") ""
      { idlePage with amountValue := "abc", fromCurrency := "USD", toCurrency := "EUR",
                      btnDisabled := true, loadingHidden := false }
      (Or.inl (by decide))).2.2.2.2.2.2.2.1⟩

/-! ## The three panels -/

/-- C5: from any state, showLoading leaves exactly the loading panel visible,
showResult exactly the result panel, showError exactly the error panel,
clearResult and swapCurrencies leave none visible; so after each of them at
most one of the three panels is visible. -/
theorem panels_mutually_exclusive (s : State) (amount rate : JSNumber) (currency : String)
    (fromCurrency : Option String) (message : String) :
    ((showLoading s).loadingHidden = false ∧ (showLoading s).resultHidden = true ∧
      (showLoading s).errorHidden = true) ∧
    ((showResult s amount currency rate fromCurrency).loadingHidden = true ∧
      (showResult s amount currency rate fromCurrency).resultHidden = false ∧
      (showResult s amount currency rate fromCurrency).errorHidden = true) ∧
    ((showError s message).loadingHidden = true ∧ (showError s message).resultHidden = true ∧
      (showError s message).errorHidden = false) ∧
    ((clearResult s).loadingHidden = true ∧ (clearResult s).resultHidden = true ∧
      (clearResult s).errorHidden = true) ∧
    ((swapCurrencies s).loadingHidden = true ∧ (swapCurrencies s).resultHidden = true ∧
      (swapCurrencies s).errorHidden = true) ∧
    visiblePanels (showLoading s) = 1 ∧
    visiblePanels (showResult s amount currency rate fromCurrency) = 1 ∧
    visiblePanels (showError s message) = 1 ∧
    visiblePanels (clearResult s) = 0 ∧
    visiblePanels (swapCurrencies s) = 0 := by
  have hres : (showResult s amount currency rate fromCurrency).loadingHidden = true ∧
      (showResult s amount currency rate fromCurrency).resultHidden = false ∧
      (showResult s amount currency rate fromCurrency).errorHidden = true := by
    cases fromCurrency <;> simp only [showResult, hideAllResults, resetButtonState] <;>
      (repeat (split <;> try simp))
  refine ⟨?_, hres, ?_, ?_, ?_, ?_, ?_, ?_, ?_, ?_⟩
  · simp [showLoading, hideAllResults]
  · simp [showError, hideAllResults, resetButtonState]
  · simp [clearResult, hideAllResults]
  · simp [swapCurrencies, clearResult, hideAllResults]
  · simp [visiblePanels, showLoading, hideAllResults]
  · simp [visiblePanels, hres.1, hres.2.1, hres.2.2]
  · simp [visiblePanels, showError, hideAllResults, resetButtonState]
  · simp [visiblePanels, clearResult, hideAllResults]
  · simp [visiblePanels, swapCurrencies, clearResult, hideAllResults]

/-! ## Validation of the amount field -/

/-- C9: validateAmountInput returns false, with the validity message set to
the positive-number message, exactly when the text is not empty and parses to
NaN or to a number below 0; otherwise, so also for the empty text and for a
text that parses to 0, it returns true and clears the validity message. No
other property of the page changes. -/
theorem validateAmountInput_spec (s : State) :
    ((validateAmountInput s).2 = false ↔
      (s.amountValue ≠ "" ∧
        ((parseFloat s.amountValue).isNaN = true ∨ (parseFloat s.amountValue).ltZero = true))) ∧
    ((validateAmountInput s).2 = false →
      (validateAmountInput s).1 =
        { s with amountValidity := "Please enter a valid positive number" }) ∧
    ((validateAmountInput s).2 = true →
      (validateAmountInput s).1 = { s with amountValidity := "" }) ∧
    (s.amountValue = "" → (validateAmountInput s).2 = true) ∧
    (∀ neg e, parseFloat s.amountValue = JSNumber.fin neg 0 e →
      (validateAmountInput s).2 = true) := by
  by_cases hc : (stringToBoolean s.amountValue &&
      ((parseFloat s.amountValue).isNaN || (parseFloat s.amountValue).ltZero)) = true
  · have hv : validateAmountInput s =
        ({ s with amountValidity := "Please enter a valid positive number" }, false) := by
      simp only [validateAmountInput, hc]
      simp
    have hc2 := hc
    simp only [stringToBoolean, Bool.and_eq_true, Bool.or_eq_true, decide_eq_true_eq] at hc2
    refine ⟨?_, ?_, ?_, ?_, ?_⟩
    · simp only [hv]
      exact ⟨fun _ => hc2, fun _ => trivial⟩
    · intro _
      rw [hv]
    · intro h
      rw [hv] at h
      cases h
    · intro h
      exact absurd h hc2.1
    · intro neg e h
      rw [h] at hc2
      simp [JSNumber.isNaN, JSNumber.ltZero] at hc2
  · have hv : validateAmountInput s = ({ s with amountValidity := "" }, true) := by
      simp only [validateAmountInput, hc]
      simp
    have hc2 := hc
    simp only [stringToBoolean, Bool.and_eq_true, Bool.or_eq_true, decide_eq_true_eq] at hc2
    refine ⟨?_, ?_, ?_, ?_, ?_⟩
    · simp only [hv]
      exact ⟨fun h => Bool.noConfusion h, fun h => absurd h hc2⟩
    · intro h
      rw [hv] at h
      cases h
    · intro _
      rw [hv]
    · intro _
      rw [hv]
    · intro _ _ _
      rw [hv]

/-- C9 at the texts -5 and abc (rejected), and at the empty text and 0
(accepted). -/
theorem validateAmountInput_spec_witness :
    (validateAmountInput { idlePage with amountValue := "-5" }).2 = false ∧
    (validateAmountInput { idlePage with amountValue := "abc" }).1.amountValidity
      = "Please enter a valid positive number" ∧
    (validateAmountInput { idlePage with amountValue := "", amountValidity := "old" }).2 = true ∧
    (validateAmountInput { idlePage with amountValue := "0" }).2 = true :=
  ⟨(validateAmountInput_spec { idlePage with amountValue := "-5" }).1.mpr
      ⟨by decide, Or.inr (by decide)⟩,
   by
    rw [(validateAmountInput_spec { idlePage with amountValue := "abc" }).2.1
      ((validateAmountInput_spec { idlePage with amountValue := "abc" }).1.mpr
        ⟨by decide, Or.inl (by decide)⟩)],
   (validateAmountInput_spec { idlePage with amountValue := "", amountValidity := "old" }).2.2.2.1
      rfl,
   (validateAmountInput_spec { idlePage with amountValue := "0" }).2.2.2.2 false 0 (by decide)⟩

/-! ## Lemmas on the methods -/

theorem showResult_fields (s : State) (amount rate : JSNumber) (currency : String)
    (fc : Option String) :
    (showResult s amount currency rate fc).loadingHidden = true ∧
    (showResult s amount currency rate fc).resultHidden = false ∧
    (showResult s amount currency rate fc).errorHidden = true ∧
    (showResult s amount currency rate fc).convertedAmount = formatCurrency amount currency ∧
    (showResult s amount currency rate fc).resultCurrency = currency ∧
    (showResult s amount currency rate fc).btnDisabled = false ∧
    (showResult s amount currency rate fc).btnLoading = false ∧
    (showResult s amount currency rate fc).requests = s.requests ∧
    (showResult s amount currency rate fc).fromCurrency = s.fromCurrency ∧
    (showResult s amount currency rate fc).toCurrency = s.toCurrency ∧
    (showResult s amount currency rate fc).exchangeRates = s.exchangeRates ∧
    (showResult s amount currency rate fc).lastUpdated = s.lastUpdated := by
  cases fc <;> simp only [showResult, hideAllResults, resetButtonState] <;>
    (repeat' split) <;> simp

theorem showResult_rate_line (s : State) (amount rate : JSNumber) (currency src : String)
    (hsrc : src ≠ "") (hrate : rate.strictEqOne = false) :
    (showResult s amount currency rate (some src)).exchangeRate =
      "1 " ++ src ++ " = " ++ formatNumber rate 6 ++ " " ++ currency := by
  simp [showResult, hideAllResults, resetButtonState, stringToBoolean, hsrc, hrate]

theorem showError_fields (s : State) (message : String) :
    (showError s message).loadingHidden = true ∧
    (showError s message).resultHidden = true ∧
    (showError s message).errorHidden = false ∧
    (showError s message).errorText = message ∧
    (showError s message).btnDisabled = false ∧
    (showError s message).btnLoading = false ∧
    (showError s message).requests = s.requests ∧
    (showError s message).fromCurrency = s.fromCurrency ∧
    (showError s message).toCurrency = s.toCurrency ∧
    (showError s message).exchangeRates = s.exchangeRates ∧
    (showError s message).lastUpdated = s.lastUpdated ∧
    (showError s message).resultCurrency = s.resultCurrency := by
  simp [showError, hideAllResults, resetButtonState]

theorem getExchangeRateSettled_ok (s : State) (src dst : String) (status : Nat) (rates : Rates)
    (date : Option String) (now : String) (r : JSNumber) (hok : responseOk status = true)
    (hrate : rates.lookup dst = some r) (htruthy : r.toBoolean = true) :
    getExchangeRateSettled s src dst
      (FetchOutcome.response status (BodyOutcome.resolved (JsonData.object (some rates) date))) now
    = (updateTimestamp { s with
        exchangeRates := setProperty s.exchangeRates src rates,
        lastUpdated := some (if (date.map stringToBoolean).getD false then date.getD now else now) },
       Except.ok r) := by
  simp [getExchangeRateSettled, hok, hrate, htruthy]

theorem getExchangeRateSettled_failure (s : State) (src dst : String) (outcome : FetchOutcome)
    (now : String) (h : LookupFailure dst outcome) :
    ∃ e, getExchangeRateSettled s src dst outcome now = (s, Except.error e) := by
  cases h with
  | fetchRejects message => exact ⟨_, rfl⟩
  | badStatus status body hbad => simp [getExchangeRateSettled, hbad]
  | bodyRejects status message =>
    by_cases hok : responseOk status = true <;> simp [getExchangeRateSettled, hok]
  | nullBody status =>
    by_cases hok : responseOk status = true <;> simp [getExchangeRateSettled, hok]
  | noRates status date =>
    by_cases hok : responseOk status = true <;> simp [getExchangeRateSettled, hok]
  | missingTarget status rates date hnone =>
    by_cases hok : responseOk status = true <;> simp [getExchangeRateSettled, hok, hnone]

/-- A lookup either throws and leaves the state as it was, or returns a rate
that is truthy and was read from the rates of a success response. -/
theorem getExchangeRateSettled_cases (s : State) (src dst : String)
    (outcome : FetchOutcome) (now : String) :
    (∃ e, getExchangeRateSettled s src dst outcome now = (s, Except.error e)) ∨
    (∃ status rates date r, outcome =
        FetchOutcome.response status (BodyOutcome.resolved (JsonData.object (some rates) date)) ∧
      responseOk status = true ∧ rates.lookup dst = some r ∧ r.toBoolean = true) := by
  rcases outcome with message | ⟨status, body⟩
  · exact Or.inl ⟨_, rfl⟩
  · by_cases hok : responseOk status = true
    · rcases body with message | data
      · exact Or.inl (by simp [getExchangeRateSettled, hok])
      · rcases data with _ | ⟨rates, date⟩
        · exact Or.inl (by simp [getExchangeRateSettled, hok])
        · rcases rates with _ | rates
          · exact Or.inl (by simp [getExchangeRateSettled, hok])
          · cases hl : rates.lookup dst with
            | none => exact Or.inl (by simp [getExchangeRateSettled, hok, hl])
            | some r =>
              by_cases ht : r.toBoolean = true
              · exact Or.inr ⟨status, rates, date, r, rfl, hok, hl, ht⟩
              · exact Or.inl (by simp [getExchangeRateSettled, hok, hl, ht])
    · exact Or.inl (by simp [getExchangeRateSettled, hok])

/-! ## Lemmas on the rendering of numbers -/

theorem digitChar_ne_point (n : Nat) : digitChar n ≠ '.' := by
  unfold digitChar
  split <;> decide

theorem mem_decDigitsAux (fuel n : Nat) (acc : List Char) (c : Char)
    (h : c ∈ decDigitsAux fuel n acc) : c ∈ acc ∨ ∃ k, c = digitChar k := by
  induction fuel generalizing n acc with
  | zero => exact Or.inl h
  | succ fuel ih =>
    unfold decDigitsAux at h
    split at h
    · rcases List.mem_cons.mp h with h | h
      · exact Or.inr ⟨n, h⟩
      · exact Or.inl h
    · rcases ih _ _ h with h | h
      · rcases List.mem_cons.mp h with h | h
        · exact Or.inr ⟨n, h⟩
        · exact Or.inl h
      · exact Or.inr h

theorem decDigits_ne_point (n : Nat) (c : Char) (h : c ∈ decDigits n) : c ≠ '.' := by
  rcases mem_decDigitsAux _ _ _ _ h with h | ⟨k, rfl⟩
  · cases h
  · exact digitChar_ne_point k

theorem mem_groupReversed (l : List Char) (c : Char) (h : c ∈ groupReversed l) :
    c ∈ l ∨ c = ',' := by
  induction l using groupReversed.induct with
  | case1 x y z =>
    simp [groupReversed] at h
    simp [h]
  | case2 x y z rest hrest ih =>
    simp [groupReversed, hrest] at h
    rcases h with h | h | h | h | h
    · simp [h]
    · simp [h]
    · simp [h]
    · exact Or.inr h
    · rcases ih h with h | h
      · simp [h]
      · exact Or.inr h
  | case3 l hl =>
    unfold groupReversed at h
    split at h
    · exact absurd rfl (hl _ _ _ _)
    · exact Or.inl h

theorem groupThousands_ne_point (n : Nat) (c : Char) (h : c ∈ groupThousands (decDigits n)) :
    c ≠ '.' := by
  unfold groupThousands at h
  rcases mem_groupReversed _ _ (List.mem_reverse.mp h) with h | h
  · exact decDigits_ne_point n c (List.mem_reverse.mp h)
  · subst h
    decide

theorem fractionDigits_length (d n : Nat) : (fractionDigits d n).length = d := by
  simp [fractionDigits]

theorem trimFraction_of_length (d : Nat) (ds : List Char) (h : ds.length = d) :
    trimFraction d ds = ds := by
  simp [trimFraction, List.take_of_length_le (Nat.le_of_eq h),
    List.drop_eq_nil_of_le (Nat.le_of_eq h)]

theorem dropWhile_ne_point_append (l1 l2 : List Char) (h : ∀ c ∈ l1, c ≠ '.') :
    (l1 ++ '.' :: l2).dropWhile (fun c => c ≠ '.') = '.' :: l2 := by
  rw [List.dropWhile_append_of_pos (fun c hc => by simpa using h c hc)]
  rw [List.dropWhile_cons_of_neg (by simp)]

theorem dropWhile_ne_point_all (l1 : List Char) (h : ∀ c ∈ l1, c ≠ '.') :
    l1.dropWhile (fun c => c ≠ '.') = [] := by
  have h2 := @List.dropWhile_append_of_pos Char (fun c => decide (c ≠ '.')) l1 []
    (fun c hc => by simpa using h c hc)
  simpa using h2

/-- A finite number rendered with minimum and maximum d fraction digits has
exactly d characters after the decimal point, and no decimal point at all
when d is 0. -/
theorem fractionDigitCount_formatNumber (neg : Bool) (m : Nat) (e : Int) (d : Nat) :
    fractionDigitCount (formatNumber (JSNumber.fin neg m e) d) = d := by
  have hhead : ∀ c ∈ (if neg then [ '-'] else []) ++
      groupThousands (decDigits (roundScaled m e d / 10 ^ d)), c ≠ '.' := by
    intro c hc
    rcases List.mem_append.mp hc with hc | hc
    · cases neg
      · simp at hc
      · simp at hc
        subst hc
        decide
    · exact groupThousands_ne_point _ c hc
  have hfrac := trimFraction_of_length d (fractionDigits d (roundScaled m e d % 10 ^ d))
    (fractionDigits_length _ _)
  simp only [fractionDigitCount, formatNumber, numberFormat, numberFormatChars, hfrac,
    String.toList]
  by_cases hd : fractionDigits d (roundScaled m e d % 10 ^ d) = []
  · have hlen := fractionDigits_length d (roundScaled m e d % 10 ^ d)
    rw [hd] at hlen
    simp only [hd, if_true, List.append_nil]
    rw [dropWhile_ne_point_all _ hhead]
    simpa using hlen
  · simp only [hd, if_false]
    rw [dropWhile_ne_point_append _ _ hhead]
    simp [fractionDigits_length]

/-! ## Fraction digits per currency -/

/-- C8 fails as stated: the amount text Infinity parses to a number above 0,
so convertCurrency shows it, and formatCurrency renders it for USD as the
text ∞, with no digit after a decimal point instead of 2. -/
theorem infinite_amount_without_fraction_digits :
    (parseFloat "Infinity").gtZero = true ∧
    (convertCurrency (fun _ => FetchOutcome.rejected "") ""
      { idlePage with amountValue := "Infinity", fromCurrency := "USD",
                      toCurrency := "USD" }).resultHidden = false ∧
    (convertCurrency (fun _ => FetchOutcome.rejected "") ""
      { idlePage with amountValue := "Infinity", fromCurrency := "USD",
                      toCurrency := "USD" }).convertedAmount = formatCurrency (parseFloat "Infinity") "USD" ∧
    formatCurrency (parseFloat "Infinity") "USD" = "∞" ∧
    fractionDigitCount (formatCurrency (parseFloat "Infinity") "USD") = 0 ∧
    fractionDigitCount (formatCurrency (parseFloat "Infinity") "USD") ≠ 2 :=
  ⟨by decide, by decide, by decide, by decide, by decide, by decide⟩

/-- C8 as amended: for every finite amount and every code c, formatCurrency
renders the amount with exactly 0 digits after the decimal point when c is
JPY or KRW and with exactly 2 for every other code, the formatter being given
minimum and maximum fraction digits both 0, or both 2, for every amount; an
amount that is NaN or infinite is rendered as NaN, ∞ or -∞ whatever the code;
the list of supported currencies has 25 entries, and JPY and KRW are the only
ones among them that render a finite amount with 0 digits after the decimal
point. -/
theorem formatCurrency_fraction_digits (amount : JSNumber) (c : String) :
    ((c = "JPY" ∨ c = "KRW") → formatCurrency amount c = numberFormat ⟨0, 0⟩ amount) ∧
    (¬(c = "JPY" ∨ c = "KRW") → formatCurrency amount c = numberFormat ⟨2, 2⟩ amount) ∧
    (amount.isFinite = true → (c = "JPY" ∨ c = "KRW") →
      fractionDigitCount (formatCurrency amount c) = 0) ∧
    (amount.isFinite = true → ¬(c = "JPY" ∨ c = "KRW") →
      fractionDigitCount (formatCurrency amount c) = 2) ∧
    supportedCurrencies.length = 25 ∧
    (amount.isFinite = true →
      supportedCurrencies.filter
        (fun k => decide (fractionDigitCount (formatCurrency amount k.code) = 0))
      = [⟨"JPY", "Japanese Yen", "¥"⟩, ⟨"KRW", "South Korean Won", "₩"⟩]) ∧
    (formatCurrency JSNumber.nan c = "NaN" ∧ formatCurrency (JSNumber.inf false) c = "∞" ∧
      formatCurrency (JSNumber.inf true) c = "-∞") := by
  have hspecial : formatCurrency JSNumber.nan c = "NaN" ∧
      formatCurrency (JSNumber.inf false) c = "∞" ∧
      formatCurrency (JSNumber.inf true) c = "-∞" := by
    by_cases hk : c = "JPY" ∨ c = "KRW"
    · simp only [formatCurrency, hk, if_true]
      exact ⟨rfl, rfl, rfl⟩
    · simp only [formatCurrency, hk, if_false]
      exact ⟨rfl, rfl, rfl⟩
  have h0 : ∀ k : String, (k = "JPY" ∨ k = "KRW") → formatCurrency amount k = formatNumber amount 0 :=
    fun k hk => by simp [formatCurrency, hk]
  have h2 : ∀ k : String, ¬(k = "JPY" ∨ k = "KRW") → formatCurrency amount k = formatNumber amount 2 :=
    fun k hk => by simp [formatCurrency, hk]
  refine ⟨fun hc => h0 c hc, fun hc => h2 c hc, ?_, ?_, rfl, ?_, hspecial⟩
  · intro hfin hc
    cases amount with
    | fin neg m e => rw [h0 c hc]; exact fractionDigitCount_formatNumber neg m e 0
    | nan => cases hfin
    | inf neg => cases hfin
  · intro hfin hc
    cases amount with
    | fin neg m e => rw [h2 c hc]; exact fractionDigitCount_formatNumber neg m e 2
    | nan => cases hfin
    | inf neg => cases hfin
  · intro hfin
    cases amount with
    | nan => cases hfin
    | inf neg => cases hfin
    | fin neg m e =>
      have hp : ∀ k : Currency,
          decide (fractionDigitCount (formatCurrency (JSNumber.fin neg m e) k.code) = 0) =
            decide (k.code = "JPY" ∨ k.code = "KRW") := by
        intro k
        by_cases hk : k.code = "JPY" ∨ k.code = "KRW"
        · have hz : fractionDigitCount (formatCurrency (JSNumber.fin neg m e) k.code) = 0 := by
            rw [h0 k.code hk]
            exact fractionDigitCount_formatNumber neg m e 0
          rw [decide_eq_true hz, decide_eq_true hk]
        · have hz : fractionDigitCount (formatCurrency (JSNumber.fin neg m e) k.code) = 2 := by
            rw [h2 k.code hk]
            exact fractionDigitCount_formatNumber neg m e 2
          have hne : ¬fractionDigitCount (formatCurrency (JSNumber.fin neg m e) k.code) = 0 := by
            rw [hz]
            decide
          rw [decide_eq_false hne, decide_eq_false hk]
      rw [List.filter_congr (fun k _ => hp k)]
      decide

/-- C8 as amended, at the amount 1234.5, for JPY and for USD. -/
theorem formatCurrency_fraction_digits_witness :
    fractionDigitCount (formatCurrency (parseFloat "1234.5") "JPY") = 0 ∧
    fractionDigitCount (formatCurrency (parseFloat "1234.5") "USD") = 2 ∧
    formatCurrency (parseFloat "1234.5") "JPY" = "1,235" ∧
    formatCurrency (parseFloat "1234.5") "USD" = "1,234.50" :=
  ⟨(formatCurrency_fraction_digits (parseFloat "1234.5") "JPY").2.2.1 (by decide) (Or.inl rfl),
   (formatCurrency_fraction_digits (parseFloat "1234.5") "USD").2.2.2.1 (by decide) (by decide),
   by decide, by decide⟩

/-! ## Conversion through a lookup -/

theorem updateTimestamp_fields (s : State) :
    (updateTimestamp s).requests = s.requests ∧
    (updateTimestamp s).fromCurrency = s.fromCurrency ∧
    (updateTimestamp s).toCurrency = s.toCurrency ∧
    (updateTimestamp s).resultHidden = s.resultHidden ∧
    (updateTimestamp s).resultCurrency = s.resultCurrency ∧
    (updateTimestamp s).exchangeRates = s.exchangeRates ∧
    (updateTimestamp s).lastUpdated = s.lastUpdated := by
  unfold updateTimestamp
  split
  · split <;> simp
  · simp

theorem convertCurrencyStart_lookup (s : State)
    (hpos : (parseFloat s.amountValue).gtZero = true) (hne : s.fromCurrency ≠ s.toCurrency) :
    convertCurrencyStart s =
      (getExchangeRateStart (showLoading s) s.fromCurrency,
       some ⟨parseFloat s.amountValue, s.fromCurrency, s.toCurrency⟩) := by
  have hacc := (JSNumber.gtZero_iff_accepted _).mp hpos
  simp only [convertCurrencyStart, hacc]
  simp [hne]

theorem convertCurrency_lookup (network : String → FetchOutcome) (now : String) (s : State)
    (hpos : (parseFloat s.amountValue).gtZero = true) (hne : s.fromCurrency ≠ s.toCurrency) :
    convertCurrency network now s =
      convertCurrencySettled (getExchangeRateStart (showLoading s) s.fromCurrency)
        ⟨parseFloat s.amountValue, s.fromCurrency, s.toCurrency⟩
        (network (apiEndpoint ++ s.fromCurrency)) now := by
  simp only [convertCurrency, convertCurrencyStart_lookup s hpos hne]

theorem convertCurrencySettled_failure (s : State) (p : Pending) (outcome : FetchOutcome)
    (now : String) (e : JSError)
    (h : getExchangeRateSettled s p.fromCurrency p.toCurrency outcome now = (s, Except.error e)) :
    convertCurrencySettled s p outcome now = showError s connectivityMessage := by
  simp only [convertCurrencySettled, h, connectivityMessage]

theorem currencyCodes_ne_empty (c : String) (h : c ∈ currencyCodes) : c ≠ "" := by
  intro hc
  subst hc
  revert h
  decide

/-- C3 fails as stated: at 100 USD to EUR, a success response whose rates
hold Infinity for EUR (the JSON number 1e999) is a successful lookup, the
rate is truthy and not 1, and convertCurrency ends in the result state with
the rate line 1 USD = ∞ EUR, where the rate has no decimal place instead of
6. -/
theorem infinite_rate_line :
    (parseFloat (init idlePage).amountValue).gtZero = true ∧
    (init idlePage).fromCurrency ≠ (init idlePage).toCurrency ∧
    (JSNumber.inf false).toBoolean = true ∧
    (JSNumber.inf false).strictEqOne = false ∧
    (convertCurrency (mockService [("EUR", JSNumber.inf false)]) ""
      (init idlePage)).resultHidden = false ∧
    (convertCurrency (mockService [("EUR", JSNumber.inf false)]) ""
      (init idlePage)).exchangeRate = "1 USD = ∞ EUR" ∧
    fractionDigitCount (formatNumber (JSNumber.inf false) 6) = 0 ∧
    fractionDigitCount (formatNumber (JSNumber.inf false) 6) ≠ 6 :=
  ⟨by decide, by decide, by decide, by decide, by decide, by decide, by decide, by decide⟩

/-- C3 as amended: with an amount that parses to a number greater than 0, a
supported source currency, a different target, and a lookup that answers with
a success status and a rates mapping holding the truthy number r for the
target, convertCurrency issues the one request for the source and ends with
the result panel alone visible, the converted amount being the product of
amount and r formatted for the target, the result currency being the target,
the convert button enabled again, and, when r is not 1, the rate line
1 SRC = r DST with r rendered by formatNumber with 6 fraction digits: exactly
6 digits after the decimal point when r is finite, the text ∞ or -∞ when r is
infinite. -/
theorem convertCurrency_success (network : String → FetchOutcome) (now : String) (s : State)
    (status : Nat) (rates : Rates) (date : Option String) (r : JSNumber)
    (hpos : (parseFloat s.amountValue).gtZero = true)
    (hsrc : s.fromCurrency ∈ currencyCodes)
    (hne : s.fromCurrency ≠ s.toCurrency)
    (hnet : network (apiEndpoint ++ s.fromCurrency) =
      FetchOutcome.response status (BodyOutcome.resolved (JsonData.object (some rates) date)))
    (hok : responseOk status = true)
    (hrate : rates.lookup s.toCurrency = some r)
    (htruthy : r.toBoolean = true) :
    (convertCurrency network now s).resultHidden = false ∧
    (convertCurrency network now s).errorHidden = true ∧
    (convertCurrency network now s).loadingHidden = true ∧
    (convertCurrency network now s).convertedAmount =
      formatCurrency ((parseFloat s.amountValue).mul r) s.toCurrency ∧
    (convertCurrency network now s).resultCurrency = s.toCurrency ∧
    (convertCurrency network now s).btnDisabled = false ∧
    (convertCurrency network now s).btnLoading = false ∧
    (convertCurrency network now s).requests = s.requests ++ [apiEndpoint ++ s.fromCurrency] ∧
    (r.strictEqOne = false →
      (convertCurrency network now s).exchangeRate =
        "1 " ++ s.fromCurrency ++ " = " ++ formatNumber r 6 ++ " " ++ s.toCurrency) ∧
    (r.isFinite = true → fractionDigitCount (formatNumber r 6) = 6) ∧
    (∀ neg : Bool, r = JSNumber.inf neg →
      (convertCurrency network now s).exchangeRate =
        "1 " ++ s.fromCurrency ++ " = " ++ (if neg then "-∞" else "∞") ++ " " ++ s.toCurrency) := by
  rw [convertCurrency_lookup network now s hpos hne, hnet]
  simp only [convertCurrencySettled,
    getExchangeRateSettled_ok _ _ _ status rates date now r hok hrate htruthy]
  have hf := showResult_fields
    (updateTimestamp { getExchangeRateStart (showLoading s) s.fromCurrency with
      exchangeRates := setProperty
        (getExchangeRateStart (showLoading s) s.fromCurrency).exchangeRates s.fromCurrency rates,
      lastUpdated :=
        some (if (date.map stringToBoolean).getD false then date.getD now else now) })
    ((parseFloat s.amountValue).mul r) r s.toCurrency (some s.fromCurrency)
  refine ⟨hf.2.1, hf.2.2.1, hf.1, hf.2.2.2.1, hf.2.2.2.2.1, hf.2.2.2.2.2.1, hf.2.2.2.2.2.2.1,
    ?_, ?_, ?_, ?_⟩
  · rw [hf.2.2.2.2.2.2.2.1, (updateTimestamp_fields _).1]
    simp [getExchangeRateStart, showLoading, hideAllResults]
  · intro hone
    exact showResult_rate_line _ _ _ _ _ (currencyCodes_ne_empty _ hsrc) hone
  · intro hfin
    cases r with
    | fin neg m e => exact fractionDigitCount_formatNumber neg m e 6
    | nan => cases hfin
    | inf neg => cases hfin
  · intro neg hr
    subst hr
    have hone : (JSNumber.inf neg).strictEqOne = false := rfl
    rw [showResult_rate_line _ _ (JSNumber.inf neg) _ _ (currencyCodes_ne_empty _ hsrc) hone]
    cases neg <;> rfl

/-- C3 as amended, at 100 USD to EUR with the rates EUR: 0.92, where the page
shows 92.00 and the rate line 1 USD = 0.920000 EUR, and at 1000 USD to EUR
with the rates EUR: 0.742635, where it shows 742.64. -/
theorem convertCurrency_success_witness :
    (convertCurrency (mockService [("EUR", parseFloat "0.92")]) "" (init idlePage)).convertedAmount
      = "92.00" ∧
    (convertCurrency (mockService [("EUR", parseFloat "0.92")]) "" (init idlePage)).exchangeRate
      = "1 USD = 0.920000 EUR" ∧
    (convertCurrency (mockService [("EUR", parseFloat "0.92")]) "" (init idlePage)).requests
      = ["https://api.exchangerate-api.com/v4/latest/USD"] ∧
    (convertCurrency (mockService [("EUR", parseFloat "0.742635")]) ""
      { init idlePage with amountValue := "1000" }).convertedAmount = "742.64" ∧
    (convertCurrency (mockService [("EUR", parseFloat "0.9200005")]) ""
      (init idlePage)).exchangeRate = "1 USD = 0.920001 EUR" :=
  ⟨((convertCurrency_success (mockService [("EUR", parseFloat "0.92")]) "" (init idlePage)
      200 [("EUR", parseFloat "0.92")] none (parseFloat "0.92")
      (by decide) (by decide) (by decide) rfl (by decide) (by decide) (by decide)).2.2.2.1).trans
      (by decide),
   ((convertCurrency_success (mockService [("EUR", parseFloat "0.92")]) "" (init idlePage)
      200 [("EUR", parseFloat "0.92")] none (parseFloat "0.92")
      (by decide) (by decide) (by decide) rfl (by decide) (by decide) (by decide)).2.2.2.2.2.2.2.2.1
      (by decide)).trans (by decide),
   ((convertCurrency_success (mockService [("EUR", parseFloat "0.92")]) "" (init idlePage)
      200 [("EUR", parseFloat "0.92")] none (parseFloat "0.92")
      (by decide) (by decide) (by decide) rfl (by decide) (by decide) (by decide)).2.2.2.2.2.2.2.1).trans
      (by decide),
   ((convertCurrency_success (mockService [("EUR", parseFloat "0.742635")]) ""
      { init idlePage with amountValue := "1000" }
      200 [("EUR", parseFloat "0.742635")] none (parseFloat "0.742635")
      (by decide) (by decide) (by decide) rfl (by decide) (by decide) (by decide)).2.2.2.1).trans
      (by decide),
   ((convertCurrency_success (mockService [("EUR", parseFloat "0.9200005")]) "" (init idlePage)
      200 [("EUR", parseFloat "0.9200005")] none (parseFloat "0.9200005")
      (by decide) (by decide) (by decide) rfl (by decide) (by decide) (by decide)).2.2.2.2.2.2.2.2.1
      (by decide)).trans (by decide)⟩

/-- C4: with an amount that parses to a number greater than 0 and two
different currencies, when the lookup fails in one of the listed ways (the
request or the reading of the body throws, the status is not a success
status, the body has no rates mapping, the rates mapping lacks the target),
convertCurrency ends with the error panel alone visible, showing the
connectivity message, the result and loading panels hidden and the convert
button enabled again; the stored rates and the timestamp are as before. -/
theorem convertCurrency_lookup_failure (network : String → FetchOutcome) (now : String)
    (s : State)
    (hpos : (parseFloat s.amountValue).gtZero = true)
    (hne : s.fromCurrency ≠ s.toCurrency)
    (hfail : LookupFailure s.toCurrency (network (apiEndpoint ++ s.fromCurrency))) :
    (convertCurrency network now s).errorHidden = false ∧
    (convertCurrency network now s).errorText =
      "Failed to fetch exchange rates. Please check your connection and try again." ∧
    (convertCurrency network now s).resultHidden = true ∧
    (convertCurrency network now s).loadingHidden = true ∧
    (convertCurrency network now s).btnDisabled = false ∧
    (convertCurrency network now s).btnLoading = false ∧
    (convertCurrency network now s).requests = s.requests ++ [apiEndpoint ++ s.fromCurrency] ∧
    (convertCurrency network now s).exchangeRates = s.exchangeRates ∧
    (convertCurrency network now s).lastUpdated = s.lastUpdated := by
  rw [convertCurrency_lookup network now s hpos hne]
  obtain ⟨e, he⟩ := getExchangeRateSettled_failure
    (getExchangeRateStart (showLoading s) s.fromCurrency) s.fromCurrency s.toCurrency
    (network (apiEndpoint ++ s.fromCurrency)) now hfail
  rw [convertCurrencySettled_failure _ ⟨parseFloat s.amountValue, s.fromCurrency, s.toCurrency⟩
    _ now e he]
  have hf := showError_fields (getExchangeRateStart (showLoading s) s.fromCurrency)
    connectivityMessage
  refine ⟨hf.2.2.1, hf.2.2.2.1, hf.2.1, hf.1, hf.2.2.2.2.1, hf.2.2.2.2.2.1, ?_, ?_, ?_⟩
  · rw [hf.2.2.2.2.2.2.1]
    simp [getExchangeRateStart, showLoading, hideAllResults]
  · rw [hf.2.2.2.2.2.2.2.2.2.1]
    simp [getExchangeRateStart, showLoading, hideAllResults]
  · rw [hf.2.2.2.2.2.2.2.2.2.2.1]
    simp [getExchangeRateStart, showLoading, hideAllResults]

/-- C4 at 100 USD to EUR with a service answering status 500, and with a
service whose rates hold GBP only. -/
theorem convertCurrency_lookup_failure_witness :
    (convertCurrency (fun _ => FetchOutcome.response 500 (BodyOutcome.rejected "")) ""
      (init idlePage)).errorHidden = false ∧
    (convertCurrency (mockService [("GBP", parseFloat "0.79")]) "" (init idlePage)).errorText =
      "Failed to fetch exchange rates. Please check your connection and try again." :=
  ⟨(convertCurrency_lookup_failure
      (fun _ => FetchOutcome.response 500 (BodyOutcome.rejected "")) "" (init idlePage)
      (by decide) (by decide) (LookupFailure.badStatus 500 _ (by decide))).1,
   (convertCurrency_lookup_failure (mockService [("GBP", parseFloat "0.79")]) "" (init idlePage)
      (by decide) (by decide) (LookupFailure.missingTarget 200 _ none (by decide))).2.1⟩

/-! ## A rate of zero -/

theorem lookup_deleteProperty (rates : Rates) (key : String) :
    List.lookup key (deleteProperty rates key) = none := by
  induction rates with
  | nil => rfl
  | cons kv rest ih =>
    unfold deleteProperty at ih ⊢
    by_cases h : kv.1 = key
    · simp [List.filter, h, ih]
      exact fun a b _ h1 h2 => h1 h2.symm
    · have hk : (key == kv.1) = false := by
        simp only [beq_eq_false_iff_ne]
        exact fun hc => h hc.symm
      simp [List.filter, h, List.lookup, hk, ih]
      exact fun a b _ h1 h2 => h1 h2.symm

/-- C10: when a success response holds the value 0 (of either sign) for the
target, getExchangeRate throws the same error and leaves the same state as
for the same response with the target removed from the rates, and
convertCurrency ends with the error panel showing the connectivity message;
whenever the continuation of a conversion ends with the result panel visible,
the lookup returned a truthy rate, so not 0 and not NaN; and a lookup that
throws leaves the whole state, so the stored rates and the last-updated
timestamp, unchanged. -/
theorem zero_rate_is_failure (network : String → FetchOutcome) (now : String) (s : State)
    (status : Nat) (rates : Rates) (date : Option String) (neg : Bool) (e : Int)
    (hpos : (parseFloat s.amountValue).gtZero = true)
    (hne : s.fromCurrency ≠ s.toCurrency)
    (hnet : network (apiEndpoint ++ s.fromCurrency) =
      FetchOutcome.response status (BodyOutcome.resolved (JsonData.object (some rates) date)))
    (hok : responseOk status = true)
    (hzero : rates.lookup s.toCurrency = some (JSNumber.fin neg 0 e)) :
    (∀ t : State, getExchangeRateSettled t s.fromCurrency s.toCurrency
        (FetchOutcome.response status (BodyOutcome.resolved (JsonData.object (some rates) date))) now
      = getExchangeRateSettled t s.fromCurrency s.toCurrency
        (FetchOutcome.response status (BodyOutcome.resolved
          (JsonData.object (some (deleteProperty rates s.toCurrency)) date))) now) ∧
    (∀ t : State, getExchangeRateSettled t s.fromCurrency s.toCurrency
        (FetchOutcome.response status (BodyOutcome.resolved (JsonData.object (some rates) date))) now
      = (t, Except.error (JSError.error ("Exchange rate not available for " ++ s.toCurrency)))) ∧
    ((convertCurrency network now s).errorHidden = false ∧
      (convertCurrency network now s).resultHidden = true ∧
      (convertCurrency network now s).loadingHidden = true ∧
      (convertCurrency network now s).errorText =
        "Failed to fetch exchange rates. Please check your connection and try again." ∧
      (convertCurrency network now s).exchangeRates = s.exchangeRates ∧
      (convertCurrency network now s).lastUpdated = s.lastUpdated) ∧
    (∀ (t : State) (p : Pending) (outcome : FetchOutcome),
      (convertCurrencySettled t p outcome now).resultHidden = false →
      ∃ rate, (getExchangeRateSettled t p.fromCurrency p.toCurrency outcome now).2 = Except.ok rate ∧
        rate.toBoolean = true ∧ rate ≠ JSNumber.nan ∧ ∀ sign ex, rate ≠ JSNumber.fin sign 0 ex) ∧
    (∀ (t : State) (src dst : String) (outcome : FetchOutcome) (err : JSError),
      (getExchangeRateSettled t src dst outcome now).2 = Except.error err →
      (getExchangeRateSettled t src dst outcome now).1 = t) := by
  have hthrow : ∀ t : State, getExchangeRateSettled t s.fromCurrency s.toCurrency
      (FetchOutcome.response status (BodyOutcome.resolved (JsonData.object (some rates) date))) now
      = (t, Except.error (JSError.error ("Exchange rate not available for " ++ s.toCurrency))) := by
    intro t
    simp [getExchangeRateSettled, hok, hzero, JSNumber.toBoolean]
  have habsent : ∀ t : State, getExchangeRateSettled t s.fromCurrency s.toCurrency
      (FetchOutcome.response status (BodyOutcome.resolved
        (JsonData.object (some (deleteProperty rates s.toCurrency)) date))) now
      = (t, Except.error (JSError.error ("Exchange rate not available for " ++ s.toCurrency))) := by
    intro t
    simp [getExchangeRateSettled, hok, lookup_deleteProperty]
  refine ⟨fun t => (hthrow t).trans (habsent t).symm, hthrow, ?_, ?_, ?_⟩
  · rw [convertCurrency_lookup network now s hpos hne, hnet]
    rw [convertCurrencySettled_failure _ ⟨parseFloat s.amountValue, s.fromCurrency, s.toCurrency⟩
      _ now _ (hthrow _)]
    have hf := showError_fields (getExchangeRateStart (showLoading s) s.fromCurrency)
      connectivityMessage
    refine ⟨hf.2.2.1, hf.2.1, hf.1, hf.2.2.2.1, ?_, ?_⟩
    · rw [hf.2.2.2.2.2.2.2.2.2.1]
      simp [getExchangeRateStart, showLoading, hideAllResults]
    · rw [hf.2.2.2.2.2.2.2.2.2.2.1]
      simp [getExchangeRateStart, showLoading, hideAllResults]
  · intro t p outcome hvis
    rcases getExchangeRateSettled_cases t p.fromCurrency p.toCurrency outcome now with
      ⟨err, herr⟩ | ⟨st, rs, dt, r, hout, hst, hlook, htr⟩
    · rw [convertCurrencySettled_failure t p outcome now err herr] at hvis
      rw [(showError_fields t connectivityMessage).2.1] at hvis
      cases hvis
    · subst hout
      refine ⟨r, ?_, htr, ?_, ?_⟩
      · rw [getExchangeRateSettled_ok t _ _ st rs dt now r hst hlook htr]
      · intro hr
        subst hr
        cases htr
      · intro sign ex hr
        subst hr
        simp [JSNumber.toBoolean] at htr
  · intro t src dst outcome err herr
    rcases getExchangeRateSettled_cases t src dst outcome now with
      ⟨err2, herr2⟩ | ⟨st, rs, dt, r, hout, hst, hlook, htr⟩
    · rw [herr2]
    · subst hout
      rw [getExchangeRateSettled_ok t _ _ st rs dt now r hst hlook htr] at herr
      cases herr

/-- C10 at 100 USD to EUR with the rates EUR: 0. -/
theorem zero_rate_is_failure_witness :
    (convertCurrency (mockService [("EUR", parseFloat "0")]) "" (init idlePage)).errorHidden = false ∧
    (convertCurrency (mockService [("EUR", parseFloat "0")]) "" (init idlePage)).errorText =
      "Failed to fetch exchange rates. Please check your connection and try again." ∧
    (convertCurrency (mockService [("EUR", parseFloat "0")]) "" (init idlePage)).exchangeRates = [] :=
  ⟨(zero_rate_is_failure (mockService [("EUR", parseFloat "0")]) "" (init idlePage)
      200 [("EUR", parseFloat "0")] none false 0
      (by decide) (by decide) rfl (by decide) (by decide)).2.2.1.1,
   (zero_rate_is_failure (mockService [("EUR", parseFloat "0")]) "" (init idlePage)
      200 [("EUR", parseFloat "0")] none false 0
      (by decide) (by decide) rfl (by decide) (by decide)).2.2.1.2.2.2.1,
   (zero_rate_is_failure (mockService [("EUR", parseFloat "0")]) "" (init idlePage)
      200 [("EUR", parseFloat "0")] none false 0
      (by decide) (by decide) rfl (by decide) (by decide)).2.2.1.2.2.2.2.1⟩

/-! ## Swap -/

/-- C6: swapCurrencies exchanges the two selected codes, hides the three
panels, keeps the amount and issues no request; a convertCurrency that
follows it with an amount above 0 and two different codes issues its one
request for the old target as source, waits with the old source as target,
and on a successful lookup reads the rate stored under the old source. -/
theorem swapCurrencies_spec (s : State) :
    (swapCurrencies s).fromCurrency = s.toCurrency ∧
    (swapCurrencies s).toCurrency = s.fromCurrency ∧
    (swapCurrencies s).loadingHidden = true ∧
    (swapCurrencies s).resultHidden = true ∧
    (swapCurrencies s).errorHidden = true ∧
    (swapCurrencies s).amountValue = s.amountValue ∧
    (swapCurrencies s).requests = s.requests ∧
    ((parseFloat s.amountValue).gtZero = true → s.fromCurrency ≠ s.toCurrency →
      (convertCurrencyStart (swapCurrencies s)).2 =
        some ⟨parseFloat s.amountValue, s.toCurrency, s.fromCurrency⟩ ∧
      (convertCurrencyStart (swapCurrencies s)).1.requests =
        s.requests ++ [apiEndpoint ++ s.toCurrency]) ∧
    (∀ (network : String → FetchOutcome) (now : String) (status : Nat) (rates : Rates)
        (date : Option String) (r : JSNumber),
      (parseFloat s.amountValue).gtZero = true → s.fromCurrency ≠ s.toCurrency →
      network (apiEndpoint ++ s.toCurrency) =
        FetchOutcome.response status (BodyOutcome.resolved (JsonData.object (some rates) date)) →
      responseOk status = true → rates.lookup s.fromCurrency = some r → r.toBoolean = true →
      (convertCurrency network now (swapCurrencies s)).convertedAmount =
        formatCurrency ((parseFloat s.amountValue).mul r) s.fromCurrency ∧
      (convertCurrency network now (swapCurrencies s)).resultCurrency = s.fromCurrency ∧
      (convertCurrency network now (swapCurrencies s)).requests =
        s.requests ++ [apiEndpoint ++ s.toCurrency]) := by
  have h1 : (swapCurrencies s).fromCurrency = s.toCurrency := by
    simp [swapCurrencies, clearResult, hideAllResults]
  have h2 : (swapCurrencies s).toCurrency = s.fromCurrency := by
    simp [swapCurrencies, clearResult, hideAllResults]
  have h3 : (swapCurrencies s).amountValue = s.amountValue := by
    simp [swapCurrencies, clearResult, hideAllResults]
  have h4 : (swapCurrencies s).requests = s.requests := by
    simp [swapCurrencies, clearResult, hideAllResults]
  refine ⟨h1, h2, ?_, ?_, ?_, h3, h4, ?_, ?_⟩
  · simp [swapCurrencies, clearResult, hideAllResults]
  · simp [swapCurrencies, clearResult, hideAllResults]
  · simp [swapCurrencies, clearResult, hideAllResults]
  · intro hpos hne
    have hpos2 : (parseFloat (swapCurrencies s).amountValue).gtZero = true := by rw [h3]; exact hpos
    have hne2 : (swapCurrencies s).fromCurrency ≠ (swapCurrencies s).toCurrency := by
      rw [h1, h2]
      exact fun hc => hne hc.symm
    rw [convertCurrencyStart_lookup _ hpos2 hne2, h1, h2, h3]
    refine ⟨rfl, ?_⟩
    simp [getExchangeRateStart, showLoading, hideAllResults, h4]
  · intro network now status rates date r hpos hne hnet hok hrate htruthy
    have hpos2 : (parseFloat (swapCurrencies s).amountValue).gtZero = true := by rw [h3]; exact hpos
    have hne2 : (swapCurrencies s).fromCurrency ≠ (swapCurrencies s).toCurrency := by
      rw [h1, h2]
      exact fun hc => hne hc.symm
    rw [convertCurrency_lookup network now _ hpos2 hne2, h1, h2, h3, hnet]
    simp only [convertCurrencySettled,
      getExchangeRateSettled_ok _ _ _ status rates date now r hok hrate htruthy]
    have hf := showResult_fields
      (updateTimestamp { getExchangeRateStart (showLoading (swapCurrencies s)) s.toCurrency with
        exchangeRates := setProperty
          (getExchangeRateStart (showLoading (swapCurrencies s)) s.toCurrency).exchangeRates
          s.toCurrency rates,
        lastUpdated :=
          some (if (date.map stringToBoolean).getD false then date.getD now else now) })
      ((parseFloat s.amountValue).mul r) r s.fromCurrency (some s.toCurrency)
    refine ⟨hf.2.2.2.1, hf.2.2.2.2.1, ?_⟩
    rw [hf.2.2.2.2.2.2.2.1, (updateTimestamp_fields _).1]
    simp [getExchangeRateStart, showLoading, hideAllResults, h4]

/-- C6 at the start state (100, USD to EUR): after the swap the conversion
asks for EUR and reads the rate of USD; and the same with the amount 1000
and the rate 0.742635 for USD, shown as 742.64. -/
theorem swapCurrencies_spec_witness :
    (convertCurrency (mockService [("USD", parseFloat "0.742635")]) ""
      (swapCurrencies { init idlePage with amountValue := "1000" })).convertedAmount = "742.64" ∧
    (convertCurrency (mockService [("USD", parseFloat "1.09"), ("EUR", parseFloat "1")]) ""
      (swapCurrencies (init idlePage))).requests
      = ["https://api.exchangerate-api.com/v4/latest/EUR"] ∧
    (convertCurrency (mockService [("USD", parseFloat "1.09"), ("EUR", parseFloat "1")]) ""
      (swapCurrencies (init idlePage))).convertedAmount = "109.00" ∧
    (convertCurrency (mockService [("USD", parseFloat "1.09"), ("EUR", parseFloat "1")]) ""
      (swapCurrencies (init idlePage))).resultCurrency = "USD" :=
  ⟨((swapCurrencies_spec { init idlePage with amountValue := "1000" }).2.2.2.2.2.2.2.2
      (mockService [("USD", parseFloat "0.742635")]) "" 200
      [("USD", parseFloat "0.742635")] none (parseFloat "0.742635")
      (by decide) (by decide) rfl (by decide) (by decide) (by decide)).1.trans (by decide),
   ((swapCurrencies_spec (init idlePage)).2.2.2.2.2.2.2.2
      (mockService [("USD", parseFloat "1.09"), ("EUR", parseFloat "1")]) "" 200
      [("USD", parseFloat "1.09"), ("EUR", parseFloat "1")] none (parseFloat "1.09")
      (by decide) (by decide) rfl (by decide) (by decide) (by decide)).2.2.trans (by decide),
   ((swapCurrencies_spec (init idlePage)).2.2.2.2.2.2.2.2
      (mockService [("USD", parseFloat "1.09"), ("EUR", parseFloat "1")]) "" 200
      [("USD", parseFloat "1.09"), ("EUR", parseFloat "1")] none (parseFloat "1.09")
      (by decide) (by decide) rfl (by decide) (by decide) (by decide)).1.trans (by decide),
   ((swapCurrencies_spec (init idlePage)).2.2.2.2.2.2.2.2
      (mockService [("USD", parseFloat "1.09"), ("EUR", parseFloat "1")]) "" 200
      [("USD", parseFloat "1.09"), ("EUR", parseFloat "1")] none (parseFloat "1.09")
      (by decide) (by decide) rfl (by decide) (by decide) (by decide)).2.1.trans (by decide)⟩

/-! ## The result on display and the selected target -/

theorem convertCurrencyStart_cases (s : State) :
    convertCurrencyStart s =
      (showError s "Please enter a valid amount greater than 0", none) ∨
    convertCurrencyStart s =
      (showResult s (parseFloat s.amountValue) s.toCurrency JSNumber.one none, none) ∨
    convertCurrencyStart s =
      (getExchangeRateStart (showLoading s) s.fromCurrency,
       some ⟨parseFloat s.amountValue, s.fromCurrency, s.toCurrency⟩) := by
  unfold convertCurrencyStart
  simp only []
  split
  · exact Or.inl rfl
  · split
    · exact Or.inr (Or.inl rfl)
    · exact Or.inr (Or.inr rfl)

theorem convertCurrencySettled_cases (s : State) (p : Pending) (outcome : FetchOutcome)
    (now : String) :
    convertCurrencySettled s p outcome now = showError s connectivityMessage ∨
    ∃ (t : State) (r : JSNumber), t.toCurrency = s.toCurrency ∧
      t.fromCurrency = s.fromCurrency ∧
      convertCurrencySettled s p outcome now =
        showResult t (p.amount.mul r) p.toCurrency r (some p.fromCurrency) := by
  rcases getExchangeRateSettled_cases s p.fromCurrency p.toCurrency outcome now with
    ⟨err, herr⟩ | ⟨st, rs, dt, r, hout, hst, hlook, htr⟩
  · exact Or.inl (convertCurrencySettled_failure s p outcome now err herr)
  · subst hout
    refine Or.inr ⟨updateTimestamp { s with
        exchangeRates := setProperty s.exchangeRates p.fromCurrency rs,
        lastUpdated := some (if (dt.map stringToBoolean).getD false then dt.getD now else now) },
      r, ?_, ?_, ?_⟩
    · rw [(updateTimestamp_fields _).2.2.1]
    · rw [(updateTimestamp_fields _).2.1]
    · simp only [convertCurrencySettled,
        getExchangeRateSettled_ok s _ _ st rs dt now r hst hlook htr]

/-- What an event does to the result on display: it hides the result panel;
or it is a convert trigger that shows a result for the selected pair; or it
is a lookup settling that shows a result for the pair its call read; or it
leaves the panel, the result currency, the selection and the history variable
as they were. -/
theorem handle_display (σ : System) (ev : Event) :
    (σ.handle ev).ui.resultHidden = true ∨
    ((σ.handle ev).ui.resultCurrency = σ.ui.toCurrency ∧
      (σ.handle ev).ui.toCurrency = σ.ui.toCurrency ∧
      (σ.handle ev).ui.fromCurrency = σ.ui.fromCurrency ∧
      (σ.handle ev).shownFor = some (σ.ui.fromCurrency, σ.ui.toCurrency)) ∨
    (∃ index outcome now p, ev = Event.settle index outcome now ∧
      σ.pending.get? index = some p ∧
      (convertCurrencySettled σ.ui p outcome now).resultHidden = false ∧
      (σ.handle ev).ui.resultCurrency = p.toCurrency ∧
      (σ.handle ev).ui.toCurrency = σ.ui.toCurrency ∧
      (σ.handle ev).ui.fromCurrency = σ.ui.fromCurrency ∧
      (σ.handle ev).shownFor = some (p.fromCurrency, p.toCurrency)) ∨
    ((σ.handle ev).ui.resultHidden = σ.ui.resultHidden ∧
      (σ.handle ev).ui.resultCurrency = σ.ui.resultCurrency ∧
      (σ.handle ev).ui.toCurrency = σ.ui.toCurrency ∧
      (σ.handle ev).ui.fromCurrency = σ.ui.fromCurrency ∧
      (σ.handle ev).shownFor = σ.shownFor) := by
  cases ev with
  | convert =>
    rcases convertCurrencyStart_cases σ.ui with h | h | h
    · refine Or.inl ?_
      simp only [System.handle, h]
      exact (showError_fields _ _).2.1
    · refine Or.inr (Or.inl ?_)
      have hf := showResult_fields σ.ui (parseFloat σ.ui.amountValue) JSNumber.one
        σ.ui.toCurrency none
      simp only [System.handle, h]
      refine ⟨hf.2.2.2.2.1, hf.2.2.2.2.2.2.2.2.2.1, hf.2.2.2.2.2.2.2.2.1, ?_⟩
      rw [hf.2.1]
      rfl
    · refine Or.inl ?_
      simp only [System.handle, h]
      simp [getExchangeRateStart, showLoading, hideAllResults]
  | settle index outcome now =>
    cases hget : σ.pending.get? index with
    | none =>
      refine Or.inr (Or.inr (Or.inr ?_))
      simp only [System.handle, hget]
      simp
    | some p =>
      rcases convertCurrencySettled_cases σ.ui p outcome now with h | ⟨t, r, hto, hfrom, h⟩
      · refine Or.inl ?_
        simp only [System.handle, hget]
        rw [h]
        exact (showError_fields _ _).2.1
      · refine Or.inr (Or.inr (Or.inl ⟨index, outcome, now, p, rfl, hget, ?_, ?_⟩))
        · rw [h]
          exact (showResult_fields _ _ _ _ _).2.1
        · have hf := showResult_fields t (p.amount.mul r) r p.toCurrency (some p.fromCurrency)
          simp only [System.handle, hget]
          rw [h]
          refine ⟨hf.2.2.2.2.1, ?_, ?_, ?_⟩
          · rw [hf.2.2.2.2.2.2.2.2.2.1, hto]
          · rw [hf.2.2.2.2.2.2.2.2.1, hfrom]
          · rw [hf.2.1]
            rfl
  | changeFrom code =>
    refine Or.inl ?_
    simp [System.handle, clearResult, hideAllResults]
  | changeTo code =>
    refine Or.inl ?_
    simp [System.handle, clearResult, hideAllResults]
  | swap =>
    refine Or.inl ?_
    simp [System.handle, swapCurrencies, clearResult, hideAllResults]
  | input text =>
    refine Or.inr (Or.inr (Or.inr ?_))
    have hv : ∀ t : State, (validateAmountInput t).1.resultHidden = t.resultHidden ∧
        (validateAmountInput t).1.resultCurrency = t.resultCurrency ∧
        (validateAmountInput t).1.toCurrency = t.toCurrency ∧
        (validateAmountInput t).1.fromCurrency = t.fromCurrency := by
      intro t
      unfold validateAmountInput
      simp only []
      split <;> simp
    simp only [System.handle]
    exact ⟨(hv _).1, (hv _).2.1, (hv _).2.2.1, (hv _).2.2.2, trivial⟩
  | swapTimer =>
    refine Or.inr (Or.inr (Or.inr ?_))
    simp [System.handle, swapTimeout]

theorem start_resultHidden (page : State) (hpage : page.resultHidden = true) :
    (System.start page).ui.resultHidden = true := by
  have hinit : (init page).resultHidden = page.resultHidden := by
    rw [init, (updateTimestamp_fields _).2.2.2.1]
    rfl
  simp only [System.start]
  rw [hinit, hpage]

/-- In every reachable state a visible result shows the target of the
conversion recorded by the history variable. -/
theorem reachable_shows_recorded (page : State) (σ : System)
    (hpage : page.resultHidden = true) (h : Reachable page σ)
    (hvis : σ.ui.resultHidden = false) :
    ∃ src, σ.shownFor = some (src, σ.ui.resultCurrency) := by
  induction h with
  | start =>
    rw [start_resultHidden page hpage] at hvis
    cases hvis
  | step σ ev _ _ ih =>
    rcases handle_display σ ev with h | h | ⟨_, _, _, p, _, _, _, hc, _, _, hs⟩ | h
    · rw [h] at hvis
      cases hvis
    · exact ⟨σ.ui.fromCurrency, by rw [h.2.2.2, h.1]⟩
    · exact ⟨p.fromCurrency, by rw [hs, hc]⟩
    · rw [h.1] at hvis
      obtain ⟨src, hsrc⟩ := ih hvis
      exact ⟨src, by rw [h.2.2.2.2, h.2.1, hsrc]⟩

/-- Under the proviso a visible result shows the selected target and, with
pair set, is the result recorded for the selected pair. -/
theorem reachableFresh_invariant (pair : Bool) (page : State) (σ : System)
    (hpage : page.resultHidden = true) (h : ReachableFresh pair page σ)
    (hvis : σ.ui.resultHidden = false) :
    σ.ui.resultCurrency = σ.ui.toCurrency ∧
    (pair = true → σ.shownFor = some (σ.ui.fromCurrency, σ.ui.toCurrency)) := by
  induction h with
  | start =>
    rw [start_resultHidden page hpage] at hvis
    cases hvis
  | step σ ev _ _ hfresh ih =>
    rcases handle_display σ ev with
      h | h | ⟨index, outcome, now, p, hev, hget, hshown, hc, hto, hfrom, hs⟩ | h
    · rw [h] at hvis
      cases hvis
    · exact ⟨by rw [h.1, h.2.1], fun _ => by rw [h.2.2.2, h.2.1, h.2.2.1]⟩
    · subst hev
      have hp := hfresh p hget hshown
      refine ⟨by rw [hc, hto, hp.1], fun hpair => ?_⟩
      rw [hs, hto, hfrom, hp.1, hp.2 hpair]
    · rw [h.1] at hvis
      have hi := ih hvis
      refine ⟨by rw [h.2.1, h.2.2.1, hi.1], fun hpair => ?_⟩
      rw [h.2.2.2.2, h.2.2.1, h.2.2.2.1, hi.2 hpair]

/-- C7 fails as stated: from the idle page, a convert trigger for 100 USD to
EUR, a change of the target selector to GBP while the lookup is pending, and
the lookup settling with the rate for EUR reach a state where the result
panel is visible and shows EUR, the result of the pair USD to EUR, while the
selected target is GBP. -/
theorem stale_result_on_display :
    Reachable idlePage staleSystem ∧
    staleSystem.ui.resultHidden = false ∧
    staleSystem.ui.resultCurrency = "EUR" ∧
    staleSystem.ui.toCurrency = "GBP" ∧
    staleSystem.ui.resultCurrency ≠ staleSystem.ui.toCurrency ∧
    staleSystem.shownFor = some ("USD", "EUR") :=
  ⟨Reachable.step _ (Event.settle 0 (mockService [("EUR", parseFloat "0.92")] "") "")
      (Reachable.step _ (Event.changeTo "GBP")
        (Reachable.step _ Event.convert Reachable.start trivial)
        (show "GBP" ∈ currencyCodes ∧ _ from ⟨by decide, by decide⟩))
      (show 0 < _ from by decide),
   by decide, by decide, by decide, by decide, by decide⟩

/-- C7 as amended: on a page that starts with the result panel hidden, in
every state reached by convert triggers, lookups settling, changes of either
selector, swaps, edits of the amount and the swap timer, a visible result
panel shows the target of the conversion it was computed for; it shows the
currently selected target provided every lookup whose settling puts a result
on display settles while the selected target is the one its conversion read
when it was triggered; and the result on display is the one of the selected
pair provided the selected source is then the one it read as well. -/
theorem result_matches_target (page : State) (σ : System)
    (hpage : page.resultHidden = true) :
    (Reachable page σ → σ.ui.resultHidden = false →
      ∃ src, σ.shownFor = some (src, σ.ui.resultCurrency)) ∧
    (ReachableFresh false page σ → σ.ui.resultHidden = false →
      σ.ui.resultCurrency = σ.ui.toCurrency) ∧
    (ReachableFresh true page σ → σ.ui.resultHidden = false →
      σ.ui.resultCurrency = σ.ui.toCurrency ∧
      σ.shownFor = some (σ.ui.fromCurrency, σ.ui.toCurrency)) :=
  ⟨fun h hvis => reachable_shows_recorded page σ hpage h hvis,
   fun h hvis => (reachableFresh_invariant false page σ hpage h hvis).1,
   fun h hvis => ⟨(reachableFresh_invariant true page σ hpage h hvis).1,
     (reachableFresh_invariant true page σ hpage h hvis).2 rfl⟩⟩

/-- C7 as amended, at two states reached from the idle page: a convert
trigger for 100 USD to EUR and the lookup settling, where the result is the
one of the selected pair; and the same with the source selector changed to
GBP while the lookup is pending, where the result still shows the selected
target EUR. -/
theorem result_matches_target_witness :
    idlePage.resultHidden = true ∧
    ReachableFresh true idlePage settledSystem ∧
    settledSystem.ui.resultHidden = false ∧
    (settledSystem.ui.resultCurrency = settledSystem.ui.toCurrency ∧
      settledSystem.shownFor = some (settledSystem.ui.fromCurrency, settledSystem.ui.toCurrency)) ∧
    ReachableFresh false idlePage sourceChangedSystem ∧
    sourceChangedSystem.ui.resultHidden = false ∧
    sourceChangedSystem.ui.resultCurrency = sourceChangedSystem.ui.toCurrency ∧
    sourceChangedSystem.ui.fromCurrency = "GBP" ∧
    sourceChangedSystem.shownFor = some ("USD", "EUR") :=
  have hsettled : ReachableFresh true idlePage settledSystem :=
    ReachableFresh.step _ (Event.settle 0 (mockService [("EUR", parseFloat "0.92")] "") "")
      (ReachableFresh.step _ Event.convert ReachableFresh.start trivial trivial)
      (show 0 < _ from by decide)
      (fun p hp _ => by
        have hp2 : some (Pending.mk (parseFloat "100") "USD" "EUR") = some p := hp
        cases hp2
        exact ⟨by decide, fun _ => by decide⟩)
  have hsource : ReachableFresh false idlePage sourceChangedSystem :=
    ReachableFresh.step _ (Event.settle 0 (mockService [("EUR", parseFloat "0.92")] "") "")
      (ReachableFresh.step _ (Event.changeFrom "GBP")
        (ReachableFresh.step _ Event.convert ReachableFresh.start trivial trivial)
        (show "GBP" ∈ currencyCodes ∧ _ from ⟨by decide, by decide⟩) trivial)
      (show 0 < _ from by decide)
      (fun p hp _ => by
        have hp2 : some (Pending.mk (parseFloat "100") "USD" "EUR") = some p := hp
        cases hp2
        exact ⟨by decide, fun h => Bool.noConfusion h⟩)
  ⟨rfl, hsettled, by decide,
   (result_matches_target idlePage settledSystem rfl).2.2 hsettled (by decide),
   hsource, by decide,
   (result_matches_target idlePage sourceChangedSystem rfl).2.1 hsource (by decide),
   by decide, by decide⟩

end CurrencyConverter
